/-
Verification of the Kundali astrological core (app/domain/kundali, app/domain/rules,
app/services/matching_service) against its natural-language specification.

The Python source is shallowly embedded: pure functions become Lean functions over
exact rationals (`ℚ`) in place of IEEE floats, Python `%` on nonnegative divisors is
`pyMod`, Python `int(...)` truncation is `pyInt`, and Python `round(x, n)` is
`pyRound2`/`pyRound1`.  Note on ties: Python `round` uses round-half-to-even while
Mathlib's `round` is round-half-up; no value handled in this development lies on an
exact half-tie at the rounded digit, so the two agree on everything proved here.

Fallible Python code (raised exceptions) is modeled with `Option`/`Except`.
String formatting follows the source's f-strings via explicit concatenation.
-/
import Mathlib

namespace KundaliAI

/-- Python `a % b` for rationals (sign of the divisor; here always used with `b > 0`). -/
def pyMod (a b : ℚ) : ℚ := a - b * ⌊a / b⌋

/-- Python `int(q)`: truncation toward zero. -/
def pyInt (q : ℚ) : ℤ := if 0 ≤ q then ⌊q⌋ else ⌈q⌉

/-- Python `round(q, 2)` (see the header note on half-ties). -/
def pyRound2 (q : ℚ) : ℚ := (round (q * 100) : ℚ) / 100

/-- Python `round(q, 1)` (see the header note on half-ties). -/
def pyRound1 (q : ℚ) : ℚ := (round (q * 10) : ℚ) / 10

/-- Python `round(q, 4)` (see the header note on half-ties). -/
def pyRound4 (q : ℚ) : ℚ := (round (q * 10000) : ℚ) / 10000

/-- Zodiac sign list, as in every `signs = [...]` table of the source. -/
def SIGNS : List String :=
  ["Aries", "Taurus", "Gemini", "Cancer",
   "Leo", "Virgo", "Libra", "Scorpio",
   "Sagittarius", "Capricorn", "Aquarius", "Pisces"]

/-- Nakshatra list, as in `calculator.py` (`nakshatras = [...]`). -/
def NAKSHATRAS : List String :=
  ["Ashwini", "Bharani", "Krittika", "Rohini", "Mrigashira", "Ardra",
   "Punarvasu", "Pushya", "Ashlesha", "Magha", "Purva Phalguni",
   "Uttara Phalguni", "Hasta", "Chitra", "Swati", "Vishakha",
   "Anuradha", "Jyeshtha", "Mula", "Purva Ashadha", "Uttara Ashadha",
   "Shravana", "Dhanishta", "Shatabhisha", "Purva Bhadrapada",
   "Uttara Bhadrapada", "Revati"]

/-- Nakshatra span: `360.0 / 27.0` from `KundaliCalculator._calculate_nakshatra`. -/
def nakshatraSpan : ℚ := 360 / 27

/-- Index part of `KundaliCalculator._calculate_nakshatra`:
`normalized_degree = degree % 360; index = int(normalized_degree / nakshatra_span)`. -/
def nakshatraIndex (degree : ℚ) : ℤ :=
  pyInt (pyMod degree 360 / nakshatraSpan)

/-- Pada part of `KundaliCalculator._calculate_nakshatra`:
`remaining = normalized - index * span; pada = int(remaining / (span / 4)) + 1`. -/
def nakshatraPada (degree : ℚ) : ℤ :=
  pyInt ((pyMod degree 360 - nakshatraIndex degree * nakshatraSpan) / (nakshatraSpan / 4)) + 1

/-- Name lookup `nakshatras[index]` of `_calculate_nakshatra`.  Python list indexing
would raise `IndexError` out of range; the index is proved to lie in `[0, 27)`, where
`getD` agrees with it. -/
def nakshatraName (degree : ℚ) : String :=
  NAKSHATRAS.getD (nakshatraIndex degree).toNat ""

/-- Full result of `KundaliCalculator._calculate_nakshatra`: the f-string
`f"\x7bnakshatras[index]\x7d (\x7bpada\x7d)"`. -/
def calculateNakshatra (degree : ℚ) : String :=
  nakshatraName degree ++ " (" ++ toString (nakshatraPada degree) ++ ")"

/-- Planet position value object (`app/domain/kundali/schemas.py`).  Only the fields
read by the verified operations are modeled; `nakshatra`/`pada` display fields are
omitted. -/
structure PlanetPosition where
  name : String
  sign : String
  degree : ℚ
  house : ℤ
  retrograde : Bool
deriving Repr, DecidableEq

/-- Dict lookup `planets.get(name)` over a planet map, modeled as an association
list in insertion order. -/
def plookup (planets : List (String × PlanetPosition)) (n : String) : Option PlanetPosition :=
  (planets.find? (fun p => p.1 == n)).map (·.2)

/-- Kundali chart (`app/domain/kundali/schemas.py`).  The ascendant, house map and
ayanamsa fields are omitted: none of the verified operations read them. -/
structure KundaliChart where
  planets : List (String × PlanetPosition)
deriving Repr, DecidableEq

/-- Chart planet lookup `kundali.planets.get(name)`. -/
def KundaliChart.getPlanet (c : KundaliChart) (n : String) : Option PlanetPosition :=
  plookup c.planets n

/-- Derived dosha fact (`app/domain/kundali/derived/schemas.py`). -/
structure Dosha where
  name : String
  present : Bool
  severity : Option String := none
  description : Option String := none
deriving Repr, DecidableEq

/-- Houses considered for Mangal Dosha by the derived-facts engine
(`dosha_calculator.py`: `MANGAL_DOSHA_HOUSES = {1, 4, 7, 8, 12}`). -/
def MANGAL_DOSHA_HOUSES : List ℤ := [1, 4, 7, 8, 12]

/-- `DoshaCalculator._calculate_mangal_dosha` (dosha_calculator.py, lines 38-70). -/
def DoshaCalculator.calculateMangalDosha (kundali : KundaliChart) : Dosha :=
  match kundali.getPlanet "Mars" with
  | none =>
      { name := "Mangal Dosha", present := false,
        description := some "Mars position unknown" }
  | some mars =>
      if mars.house ∈ MANGAL_DOSHA_HOUSES then
        { name := "Mangal Dosha", present := true, severity := some "medium",
          description := some ("Mars is placed in house " ++ toString mars.house ++
            ", which is considered a Manglik position.") }
      else
        { name := "Mangal Dosha", present := false,
          description := some "Mars is not in a Manglik position." }

/-- `DoshaCalculator._calculate_kaal_sarp_dosha` (dosha_calculator.py, lines 76-123):
the house-based, endpoints-exclusive variant of the derived-facts engine. -/
def DoshaCalculator.calculateKaalSarpDosha (kundali : KundaliChart) : Dosha :=
  match kundali.getPlanet "Rahu", kundali.getPlanet "Ketu" with
  | some rahu, some ketu =>
      let isBetween : ℤ → Bool := fun house =>
        if rahu.house < ketu.house then
          decide (rahu.house < house ∧ house < ketu.house)
        else
          decide (house > rahu.house) || decide (house < ketu.house)
      if kundali.planets.all (fun p =>
          decide (p.2.name ∈ (["Rahu", "Ketu"] : List String)) || isBetween p.2.house) then
        { name := "Kaal Sarp Dosha", present := true, severity := some "high",
          description := some ("All planets are positioned between Rahu and Ketu, " ++
            "indicating Kaal Sarp Dosha.") }
      else
        { name := "Kaal Sarp Dosha", present := false,
          description := some "Planets are not hemmed between Rahu and Ketu." }
  | _, _ =>
      { name := "Kaal Sarp Dosha", present := false,
        description := some "Nodes unknown" }

/-- Result dict of `KundaliCalculator.calculate_mangal_dosha` (calculator.py). -/
structure MangalResult where
  present : Bool
  description : String
deriving Repr, DecidableEq

/-- `KundaliCalculator.calculate_mangal_dosha` (calculator.py, lines 459-477): the
legacy variant used by `query_router`/`report_service`; houses `[1, 2, 4, 7, 8, 12]`,
no severity field. -/
def KundaliCalculator.calculateMangalDosha
    (planets : List (String × PlanetPosition)) : MangalResult :=
  match plookup planets "Mars" with
  | none => { present := false, description := "Mars position unknown" }
  | some mars =>
      let isDosha := mars.house ∈ ([1, 2, 4, 7, 8, 12] : List ℤ)
      { present := isDosha,
        description := "Mars is in House " ++ toString mars.house ++ "." ++
          (if isDosha then " This indicates Mangal Dosha." else " No Mangal Dosha detected.") }

/-- Result dict of `KundaliCalculator.calculate_kalsarpa_dosha` (calculator.py). -/
structure KalsarpaResult where
  present : Bool
  type : Option String := none
  description : String
deriving Repr, DecidableEq

/-- Python exceptions raised by the embedded fallible code (the rule engine, the
rule matcher, and `get_abs_degree` inside the Kaal Sarp calculator). -/
inductive PyError where
  | typeError : PyError
  | attributeError : PyError
deriving Repr, DecidableEq

/-- Helper `get_abs_degree` inside `calculate_kalsarpa_dosha`, on the Pydantic
`PlanetPosition` models that every repository caller passes (`query_router.py`
line 287 and `report_service.py` line 72 both pass `kundali_chart.planets`).
Each field is read with the idiom `getattr(p, f, None) or p.get(f)`: when the
attribute value is falsy — an empty sign string, or a degree of exactly `0.0` —
Python falls through to `p.get(f)`, which raises `AttributeError` because a
Pydantic model has no `.get`.  Otherwise the absolute longitude is
`signs.index(sign) * 30 + degree`, or `0` for an unrecognized sign name (with
the sign line evaluated before the degree line, as in the source). -/
def getAbsDegree (p : PlanetPosition) : Except PyError ℚ :=
  if p.sign = "" then .error .attributeError
  else if p.degree = 0 then .error .attributeError
  else if p.sign ∈ SIGNS then .ok ((SIGNS.indexOf p.sign : ℚ) * 30 + p.degree)
  else .ok 0

/-- Helper `in_arc(deg, start, end)` inside `calculate_kalsarpa_dosha`. -/
def inArc (deg s e : ℚ) : Bool :=
  if s < e then decide (s ≤ deg) && decide (deg ≤ e)
  else decide (deg ≥ s) || decide (deg ≤ e)

/-- Planet names excluded from the hemming check in `calculate_kalsarpa_dosha`. -/
def KALSARPA_EXCLUDED : List String := ["Rahu", "Ketu", "Uranus", "Neptune", "Pluto"]

/-- The `others` loop of `calculate_kalsarpa_dosha`: for each planet whose name is
not excluded, append `get_abs_degree(p) % 360`, propagating the first raised
exception. -/
def kalsarpaOthers : List (String × PlanetPosition) → Except PyError (List ℚ)
  | [] => .ok []
  | p :: rest =>
      if p.1 ∈ KALSARPA_EXCLUDED then kalsarpaOthers rest
      else
        match getAbsDegree p.2 with
        | .error e => .error e
        | .ok d =>
            match kalsarpaOthers rest with
            | .error e => .error e
            | .ok ds => .ok (pyMod d 360 :: ds)

/-- `KundaliCalculator.calculate_kalsarpa_dosha` (calculator.py, lines 479-529):
degree-based hemming with inclusive arc endpoints, reporting the arc direction.
The node degrees are read (and can raise) before the `others` loop, as in the
source. -/
def KundaliCalculator.calculateKalsarpaDosha
    (planets : List (String × PlanetPosition)) : Except PyError KalsarpaResult :=
  match plookup planets "Rahu", plookup planets "Ketu" with
  | some rahu, some ketu =>
      match getAbsDegree rahu with
      | .error e => .error e
      | .ok ra =>
          match getAbsDegree ketu with
          | .error e => .error e
          | .ok ka =>
              let rahuDeg := pyMod ra 360
              let ketuDeg := pyMod ka 360
              match kalsarpaOthers planets with
              | .error e => .error e
              | .ok others =>
                  .ok
                    (if others.isEmpty then
                      { present := false, description := "No other planets found" }
                    else if others.all (fun d => inArc d rahuDeg ketuDeg) then
                      { present := true, type := some "Anant (Rahu to Ketu)",
                        description := "All planets are hemmed between Rahu and Ketu." }
                    else if others.all (fun d => inArc d ketuDeg rahuDeg) then
                      { present := true, type := some "Kulat (Ketu to Rahu)",
                        description := "All planets are hemmed between Ketu and Rahu." }
                    else
                      { present := false,
                        description := "Planets are not hemmed between the nodes." })
  | _, _ =>
      .ok { present := false, description := "Nodes unknown" }

/-- Fixed Vimshottari lord order and year-weights (`dasha_lords` in calculator.py). -/
def dashaLords : List (String × ℕ) :=
  [("Ketu", 7), ("Venus", 20), ("Sun", 6), ("Moon", 10),
   ("Mars", 7), ("Rahu", 18), ("Jupiter", 16), ("Saturn", 19), ("Mercury", 17)]

/-- Antardasha record emitted by `_calculate_antardashas`.  The `start_date` /
`end_date` ISO strings are omitted: they require Gregorian calendar arithmetic that
no verified claim reads. -/
structure Antardasha where
  lord : String
  durationMonths : ℚ
deriving Repr, DecidableEq

/-- Mahadasha record emitted by `calculate_vimshottari_dasha` (dates omitted, as
above). -/
structure DashaEntry where
  lord : String
  durationYears : ℚ
  antardashas : List Antardasha
deriving Repr, DecidableEq

/-- `KundaliCalculator._calculate_antardashas` (calculator.py, lines 355-394).  The
`start_date`/`is_balance` parameters only affect the omitted date fields (`is_balance`
is never read in the body). -/
def KundaliCalculator.calculateAntardashas
    (mahadashaLord : String) (mahadashaYears : ℕ) : List Antardasha :=
  let startIdx := dashaLords.findIdx (fun v => v.1 == mahadashaLord)
  (List.range 9).map (fun i =>
    let p := dashaLords.getD ((startIdx + i) % 9) ("", 0)
    let durationYears : ℚ := (mahadashaYears * p.2 : ℕ) / 120
    { lord := p.1, durationMonths := pyRound2 (durationYears * 12) })

/-- Moon longitude normalization `moon_lon = moon_degree % 360` of
`calculate_vimshottari_dasha`. -/
def moonLonOf (moonDegree : ℚ) : ℚ := pyMod moonDegree 360

/-- `nakshatra_idx = int(moon_lon / nakshatra_span)` of `calculate_vimshottari_dasha`. -/
def moonNakshatraIdx (moonDegree : ℚ) : ℤ := pyInt (moonLonOf moonDegree / nakshatraSpan)

/-- `traversed = moon_lon - nakshatra_idx * nakshatra_span`. -/
def traversedArc (moonDegree : ℚ) : ℚ :=
  moonLonOf moonDegree - moonNakshatraIdx moonDegree * nakshatraSpan

/-- `start_lord_idx = nakshatra_idx % 9` (Python integer `%`). -/
def startLordIdx (moonDegree : ℚ) : ℕ := (moonNakshatraIdx moonDegree % 9).toNat

/-- The starting lord entry `dasha_lords[start_lord_idx]`. -/
def startLord (moonDegree : ℚ) : String × ℕ :=
  dashaLords.getD (startLordIdx moonDegree) ("", 0)

/-- `balance_years = start_lord_years * fraction_remaining` where
`fraction_remaining = 1.0 - traversed / nakshatra_span`. -/
def balanceYears (moonDegree : ℚ) : ℚ :=
  (startLord moonDegree).2 * (1 - traversedArc moonDegree / nakshatraSpan)

/-- `KundaliCalculator.calculate_vimshottari_dasha` (calculator.py, lines 250-353):
the balance Mahadasha followed by the next 9 full Mahadashas (`for i in range(1, 10)`).
Date fields omitted (see `DashaEntry`). -/
def KundaliCalculator.calculateVimshottariDasha (moonDegree : ℚ) : List DashaEntry :=
  let start := startLord moonDegree
  let balance : DashaEntry :=
    { lord := start.1, durationYears := pyRound2 (balanceYears moonDegree),
      antardashas := KundaliCalculator.calculateAntardashas start.1 start.2 }
  balance :: (List.range' 1 9).map (fun i =>
    let p := dashaLords.getD ((startLordIdx moonDegree + i) % 9) ("", 0)
    { lord := p.1, durationYears := (p.2 : ℚ),
      antardashas := KundaliCalculator.calculateAntardashas p.1 p.2 })

/-- Total of the 9 Antardasha durations of a Mahadasha, in months. -/
def antarMonthsSum (l : List Antardasha) : ℚ := (l.map (·.durationMonths)).sum

/-- `NAVAMSHA_SPAN = 30 / 9` (d9.py). -/
def NAVAMSHA_SPAN : ℚ := 30 / 9

/-- `DASHAMSHA_SPAN = 30 / 10` (d10.py). -/
def DASHAMSHA_SPAN : ℚ := 30 / 10

/-- `D9Calculator._navamsha_position` (d9.py, lines 78-101).  The `ValueError`
raised on an unknown sign is modeled as `none`; `int(d // span)` is floor division. -/
def D9Calculator.navamshaPosition (sign : String) (degreeInSign : ℚ) :
    Option (String × ℚ) :=
  if sign ∈ SIGNS then
    let signIndex := SIGNS.indexOf sign
    let navamshaIndex : ℤ := ⌊degreeInSign / NAVAMSHA_SPAN⌋
    let d9SignIndex := ((signIndex : ℤ) * 9 + navamshaIndex) % 12
    some (SIGNS.getD d9SignIndex.toNat "",
      pyRound2 (pyMod degreeInSign NAVAMSHA_SPAN * (30 / NAVAMSHA_SPAN)))
  else none

/-- `D10Calculator._dashamsha_position` (d10.py, lines 78-104), with the source's
parity convention `is_odd_sign = sign_index % 2 == 0`. -/
def D10Calculator.dashamshaPosition (sign : String) (degreeInSign : ℚ) :
    Option (String × ℚ) :=
  if sign ∈ SIGNS then
    let signIndex := SIGNS.indexOf sign
    let dashamshaIndex : ℤ := ⌊degreeInSign / DASHAMSHA_SPAN⌋
    let d10SignIndex :=
      if signIndex % 2 == 0 then ((signIndex : ℤ) + dashamshaIndex) % 12
      else ((signIndex : ℤ) - dashamshaIndex) % 12
    some (SIGNS.getD d10SignIndex.toNat "",
      pyRound2 (pyMod degreeInSign DASHAMSHA_SPAN * (30 / DASHAMSHA_SPAN)))
  else none

/-- Avakahada attributes returned by `calculate_avakahada_chakra` (calculator.py,
lines 535-625). -/
structure Avakahada where
  varna : String
  vashya : String
  yoni : String
  gana : String
  nadi : String
  nakshatra : String
  sign : String
deriving Repr, DecidableEq

/-- `varna_map` (calculator.py). -/
def varnaMap : List (String × String) :=
  [("Cancer", "Brahmin"), ("Scorpio", "Brahmin"), ("Pisces", "Brahmin"),
   ("Aries", "Kshatriya"), ("Leo", "Kshatriya"), ("Sagittarius", "Kshatriya"),
   ("Taurus", "Vaishya"), ("Virgo", "Vaishya"), ("Capricorn", "Vaishya"),
   ("Gemini", "Shudra"), ("Libra", "Shudra"), ("Aquarius", "Shudra")]

/-- `vashya_map` (calculator.py). -/
def vashyaMap : List (String × String) :=
  [("Aries", "Chatushpada"), ("Taurus", "Chatushpada"),
   ("Gemini", "Manava"), ("Cancer", "Jalchar"),
   ("Leo", "Vanchar"), ("Virgo", "Manava"),
   ("Libra", "Manava"), ("Scorpio", "Keeta"),
   ("Sagittarius", "Manava"), ("Capricorn", "Jalchar"),
   ("Aquarius", "Manava"), ("Pisces", "Jalchar")]

/-- `yoni_list` (calculator.py), indexed by nakshatra. -/
def yoniList : List String :=
  ["Horse", "Elephant", "Sheep", "Serpent", "Serpent", "Dog",
   "Cat", "Sheep", "Cat", "Rat", "Rat",
   "Cow", "Buffalo", "Tiger", "Buffalo", "Tiger",
   "Deer", "Deer", "Dog", "Monkey", "Mongoose",
   "Monkey", "Lion", "Horse", "Lion",
   "Cow", "Elephant"]

/-- `gana_list` (calculator.py), indexed by nakshatra. -/
def ganaList : List String :=
  ["Deva", "Manushya", "Rakshasa", "Manushya", "Deva", "Manushya",
   "Deva", "Deva", "Rakshasa", "Rakshasa", "Manushya",
   "Manushya", "Deva", "Rakshasa", "Deva", "Rakshasa",
   "Deva", "Rakshasa", "Rakshasa", "Manushya", "Manushya",
   "Deva", "Rakshasa", "Rakshasa", "Manushya",
   "Manushya", "Deva"]

/-- `nadi_map` (calculator.py), keyed by nakshatra index, in the source's literal
order. -/
def nadiMap : List (ℤ × String) :=
  [(0, "Adi"), (5, "Adi"), (6, "Adi"), (11, "Adi"), (12, "Adi"),
   (17, "Adi"), (18, "Adi"), (23, "Adi"), (24, "Adi"),
   (1, "Madhya"), (4, "Madhya"), (7, "Madhya"), (10, "Madhya"), (13, "Madhya"),
   (16, "Madhya"), (19, "Madhya"), (22, "Madhya"), (25, "Madhya"),
   (2, "Antya"), (3, "Antya"), (8, "Antya"), (9, "Antya"), (14, "Antya"),
   (15, "Antya"), (20, "Antya"), (21, "Antya"), (26, "Antya")]

/-- `KundaliCalculator.calculate_avakahada_chakra` (calculator.py, lines 535-625).
An invalid moon sign makes the Python function return `{}` (whose later field
accesses raise `KeyError`); modeled as `none`. -/
def KundaliCalculator.calculateAvakahadaChakra (moonSign : String) (moonDegree : ℚ) :
    Option Avakahada :=
  if moonSign ∈ SIGNS then
    let signIdx := SIGNS.indexOf moonSign
    let absDegree : ℚ := (signIdx : ℚ) * 30 + moonDegree
    let nakshatraIdx : ℤ := pyInt (absDegree / nakshatraSpan)
    let nakName :=
      if 0 ≤ nakshatraIdx ∧ nakshatraIdx < 27 then NAKSHATRAS.getD nakshatraIdx.toNat ""
      else "Unknown"
    some
      { varna := (List.lookup moonSign varnaMap).getD "Unknown",
        vashya := (List.lookup moonSign vashyaMap).getD "Unknown",
        yoni :=
          if 0 ≤ nakshatraIdx ∧ nakshatraIdx < (yoniList.length : ℤ) then
            yoniList.getD nakshatraIdx.toNat ""
          else "Unknown",
        gana :=
          if 0 ≤ nakshatraIdx ∧ nakshatraIdx < (ganaList.length : ℤ) then
            ganaList.getD nakshatraIdx.toNat ""
          else "Unknown",
        nadi := (List.lookup nakshatraIdx nadiMap).getD "Unknown",
        nakshatra := nakName,
        sign := moonSign }
  else none

/-- `VARNA_HIERARCHY` (matching_service.py): index 0 is the lowest tier. -/
def VARNA_HIERARCHY : List String := ["Shudra", "Vaishya", "Kshatriya", "Brahmin"]

/-- `VASHYA_COMPAT` (matching_service.py). -/
def VASHYA_COMPAT : List ((String × String) × ℚ) :=
  [(("Manava", "Manava"), 2),
   (("Manava", "Chatushpada"), 1),
   (("Chatushpada", "Chatushpada"), 2),
   (("Vanchar", "Vanchar"), 2),
   (("Jalchar", "Jalchar"), 2),
   (("Keeta", "Keeta"), 2)]

/-- `YONI_ENEMIES` (matching_service.py). -/
def YONI_ENEMIES : List (String × String) :=
  [("Horse", "Buffalo"), ("Elephant", "Lion"), ("Sheep", "Monkey"),
   ("Serpent", "Mongoose"), ("Dog", "Deer"), ("Cat", "Rat"),
   ("Tiger", "Cow")]

/-- `GANA_SCORES` (matching_service.py). -/
def GANA_SCORES : List ((String × String) × ℚ) :=
  [(("Deva", "Deva"), 6),
   (("Manushya", "Manushya"), 6),
   (("Rakshasa", "Rakshasa"), 6),
   (("Deva", "Manushya"), 5),
   (("Manushya", "Deva"), 5),
   (("Manushya", "Rakshasa"), 1),
   (("Rakshasa", "Manushya"), 1),
   (("Deva", "Rakshasa"), 0),
   (("Rakshasa", "Deva"), 0)]

/-- `SIGN_LORDS` (matching_service.py). -/
def SIGN_LORDS : List (String × String) :=
  [("Aries", "Mars"), ("Taurus", "Venus"), ("Gemini", "Mercury"),
   ("Cancer", "Moon"), ("Leo", "Sun"), ("Virgo", "Mercury"),
   ("Libra", "Venus"), ("Scorpio", "Mars"), ("Sagittarius", "Jupiter"),
   ("Capricorn", "Saturn"), ("Aquarius", "Saturn"), ("Pisces", "Jupiter")]

/-- `PLANET_FRIENDSHIP` (matching_service.py): 1 friend, 0 neutral, -1 enemy. -/
def PLANET_FRIENDSHIP : List (String × List (String × ℤ)) :=
  [("Sun", [("Moon", 1), ("Mars", 1), ("Jupiter", 1), ("Venus", -1), ("Saturn", -1), ("Mercury", 0)]),
   ("Moon", [("Sun", 1), ("Mercury", 1), ("Mars", 0), ("Jupiter", 0), ("Venus", 0), ("Saturn", 0)]),
   ("Mars", [("Sun", 1), ("Moon", 1), ("Jupiter", 1), ("Venus", 0), ("Saturn", 0), ("Mercury", -1)]),
   ("Mercury", [("Sun", 1), ("Venus", 1), ("Moon", -1), ("Mars", 0), ("Jupiter", 0), ("Saturn", 0)]),
   ("Jupiter", [("Sun", 1), ("Moon", 1), ("Mars", 1), ("Venus", -1), ("Saturn", 0), ("Mercury", -1)]),
   ("Venus", [("Mercury", 1), ("Saturn", 1), ("Sun", -1), ("Moon", -1), ("Mars", 0), ("Jupiter", 0)]),
   ("Saturn", [("Mercury", 1), ("Venus", 1), ("Sun", -1), ("Moon", -1), ("Mars", -1), ("Jupiter", 0)])]

/-- `BHAKOOT_BAD` (matching_service.py). -/
def BHAKOOT_BAD : List (ℤ × ℤ) := [(2, 12), (5, 9), (6, 8)]

/-- Base-name extraction `s.split(" (")[0] if " (" in s else s` used by `_calc_tara`
and the factor display values.  `splitOn` returns `[s]` when the separator is absent,
so both Python branches coincide with taking the head. -/
def stripPada (s : String) : String := (s.splitOn " (").headD s

/-- `MatchingService._calc_varna` (matching_service.py). -/
def MatchingService.calcVarna (boyVarna girlVarna : String) : ℚ × String :=
  let boyRank := if boyVarna ∈ VARNA_HIERARCHY then VARNA_HIERARCHY.indexOf boyVarna else 0
  let girlRank := if girlVarna ∈ VARNA_HIERARCHY then VARNA_HIERARCHY.indexOf girlVarna else 0
  if boyRank ≥ girlRank then
    (1, "Boy (" ++ boyVarna ++ ") is equal or higher than Girl (" ++ girlVarna ++ ").")
  else
    (0, "Boy (" ++ boyVarna ++ ") is lower than Girl (" ++ girlVarna ++ ").")

/-- `MatchingService._calc_vashya` (matching_service.py). -/
def MatchingService.calcVashya (boyVashya girlVashya : String) : ℚ × String :=
  let score :=
    match List.lookup (boyVashya, girlVashya) VASHYA_COMPAT with
    | some s => s
    | none =>
        match List.lookup (girlVashya, boyVashya) VASHYA_COMPAT with
        | some s => s
        | none => if boyVashya == girlVashya then 2 else 0
  (score, "Boy: " ++ boyVashya ++ ", Girl: " ++ girlVashya ++ ".")

/-- `MatchingService._calc_tara` (matching_service.py).  Python `%` on ints is
Lean's `Int.emod` for a positive modulus. -/
def MatchingService.calcTara (boyNak girlNak : String) : ℚ × String :=
  let boyBase := stripPada boyNak
  let girlBase := stripPada girlNak
  if boyBase ∈ NAKSHATRAS ∧ girlBase ∈ NAKSHATRAS then
    let boyIdx := NAKSHATRAS.indexOf boyBase
    let girlIdx := NAKSHATRAS.indexOf girlBase
    let dist : ℤ := ((boyIdx : ℤ) - girlIdx) % 27 + 1
    let taraNum : ℤ := (dist - 1) % 9 + 1
    if taraNum ∈ ([3, 5, 7] : List ℤ) then
      (3, "Tara " ++ toString taraNum ++ " is auspicious.")
    else if taraNum ∈ ([1, 2, 4, 6, 8] : List ℤ) then
      (1.5, "Tara " ++ toString taraNum ++ " is neutral.")
    else
      (0, "Tara " ++ toString taraNum ++ " is inauspicious.")
  else (1.5, "Could not determine Nakshatra indices.")

/-- `MatchingService._calc_yoni` (matching_service.py). -/
def MatchingService.calcYoni (boyYoni girlYoni : String) : ℚ × String :=
  if boyYoni == girlYoni then
    (4, "Same Yoni (" ++ boyYoni ++ ") — excellent physical compatibility.")
  else if (boyYoni, girlYoni) ∈ YONI_ENEMIES ∨ (girlYoni, boyYoni) ∈ YONI_ENEMIES then
    (0, boyYoni ++ " and " ++ girlYoni ++ " are enemies.")
  else
    (2, boyYoni ++ " and " ++ girlYoni ++ " are neutral.")

/-- `MatchingService._calc_graha_maitri` (matching_service.py).
`PLANET_FRIENDSHIP.get(a, \x7b\x7d).get(b, 0)` becomes a nested lookup with default 0. -/
def MatchingService.calcGrahaMaitri (boySign girlSign : String) : ℚ × String :=
  let boyLord := (List.lookup boySign SIGN_LORDS).getD "Unknown"
  let girlLord := (List.lookup girlSign SIGN_LORDS).getD "Unknown"
  if boyLord == "Unknown" || girlLord == "Unknown" then
    (2.5, "Could not determine lords.")
  else if boyLord == girlLord then
    (5, "Same lord (" ++ boyLord ++ ") — excellent mental compatibility.")
  else
    let friendship : ℤ :=
      (((List.lookup boyLord PLANET_FRIENDSHIP).getD []).lookup girlLord).getD 0
    let revFriendship : ℤ :=
      (((List.lookup girlLord PLANET_FRIENDSHIP).getD []).lookup boyLord).getD 0
    let avg : ℚ := ((friendship : ℚ) + revFriendship) / 2
    if avg ≥ 0.5 then (5, boyLord ++ " and " ++ girlLord ++ " are friends.")
    else if avg ≥ 0 then (3, boyLord ++ " and " ++ girlLord ++ " are neutral.")
    else (0, boyLord ++ " and " ++ girlLord ++ " are enemies.")

/-- `MatchingService._calc_gana` (matching_service.py): table lookup, default 3. -/
def MatchingService.calcGana (boyGana girlGana : String) : ℚ × String :=
  let score := (List.lookup (boyGana, girlGana) GANA_SCORES).getD 3
  (score, "Boy: " ++ boyGana ++ ", Girl: " ++ girlGana ++ ".")

/-- `MatchingService._calc_bhakoot` (matching_service.py). -/
def MatchingService.calcBhakoot (boySign girlSign : String) : ℚ × String :=
  if boySign ∈ SIGNS ∧ girlSign ∈ SIGNS then
    let boyIdx := SIGNS.indexOf boySign
    let girlIdx := SIGNS.indexOf girlSign
    let dist1 : ℤ := ((boyIdx : ℤ) - girlIdx) % 12 + 1
    let dist2 : ℤ := ((girlIdx : ℤ) - boyIdx) % 12 + 1
    if BHAKOOT_BAD.any (fun bad => (dist1, dist2) == bad || (dist2, dist1) == bad) then
      (0, "Distance " ++ toString dist1 ++ "/" ++ toString dist2 ++ " indicates Bhakoot Dosha.")
    else
      (7, "No Bhakoot Dosha detected (distance: " ++ toString dist1 ++ "/" ++ toString dist2 ++ ").")
  else (3.5, "Could not determine sign indices.")

/-- `MatchingService._calc_nadi` (matching_service.py). -/
def MatchingService.calcNadi (boyNadi girlNadi : String) : ℚ × String :=
  if boyNadi == girlNadi then
    (0, "Same Nadi (" ++ boyNadi ++ ") — Nadi Dosha! Risk to progeny.")
  else
    (8, "Different Nadis (" ++ boyNadi ++ " vs " ++ girlNadi ++ ") — no Nadi Dosha.")

/-- Per-factor breakdown record of `calculate_ashta_koot` (dict key `"max"` is the
field `maxScore`). -/
structure CompatibilityFactor where
  name : String
  score : ℚ
  maxScore : ℚ
  description : String
  boyValue : String
  girlValue : String
  area : String
deriving Repr, DecidableEq

/-- Result record of `calculate_ashta_koot`. -/
structure AshtaKootResult where
  totalScore : ℚ
  maxScore : ℚ
  percentage : ℚ
  verdict : String
  factors : List CompatibilityFactor
  boyDetails : Avakahada
  girlDetails : Avakahada
deriving Repr, DecidableEq

/-- `MatchingService.calculate_ashta_koot` (matching_service.py, lines 102-206).
A moon sign outside the 12-sign table makes the Python code raise `KeyError` on the
empty Avakahada dict; modeled as `none`. -/
def MatchingService.calculateAshtaKoot (boyMoonSign : String) (boyMoonDegree : ℚ)
    (girlMoonSign : String) (girlMoonDegree : ℚ) : Option AshtaKootResult :=
  match KundaliCalculator.calculateAvakahadaChakra boyMoonSign boyMoonDegree,
        KundaliCalculator.calculateAvakahadaChakra girlMoonSign girlMoonDegree with
  | some boyAva, some girlAva =>
      let varna := MatchingService.calcVarna boyAva.varna girlAva.varna
      let vashya := MatchingService.calcVashya boyAva.vashya girlAva.vashya
      let tara := MatchingService.calcTara boyAva.nakshatra girlAva.nakshatra
      let yoni := MatchingService.calcYoni boyAva.yoni girlAva.yoni
      let maitri := MatchingService.calcGrahaMaitri boyMoonSign girlMoonSign
      let gana := MatchingService.calcGana boyAva.gana girlAva.gana
      let bhakoot := MatchingService.calcBhakoot boyMoonSign girlMoonSign
      let nadi := MatchingService.calcNadi boyAva.nadi girlAva.nadi
      let factors : List CompatibilityFactor :=
        [{ name := "Varna", score := varna.1, maxScore := 1, description := varna.2,
           boyValue := boyAva.varna, girlValue := girlAva.varna, area := "Work & Status" },
         { name := "Vashya", score := vashya.1, maxScore := 2, description := vashya.2,
           boyValue := boyAva.vashya, girlValue := girlAva.vashya, area := "Dominance & Control" },
         { name := "Tara", score := tara.1, maxScore := 3, description := tara.2,
           boyValue := stripPada boyAva.nakshatra, girlValue := stripPada girlAva.nakshatra,
           area := "Destiny & Health" },
         { name := "Yoni", score := yoni.1, maxScore := 4, description := yoni.2,
           boyValue := boyAva.yoni, girlValue := girlAva.yoni, area := "Physical & Intimacy" },
         { name := "Graha Maitri", score := maitri.1, maxScore := 5, description := maitri.2,
           boyValue := (List.lookup boyMoonSign SIGN_LORDS).getD "Unknown",
           girlValue := (List.lookup girlMoonSign SIGN_LORDS).getD "Unknown",
           area := "Mental Compatibility" },
         { name := "Gana", score := gana.1, maxScore := 6, description := gana.2,
           boyValue := boyAva.gana, girlValue := girlAva.gana, area := "Temperament & Nature" },
         { name := "Bhakoot", score := bhakoot.1, maxScore := 7, description := bhakoot.2,
           boyValue := boyMoonSign, girlValue := girlMoonSign, area := "Love & Prosperity" },
         { name := "Nadi", score := nadi.1, maxScore := 8, description := nadi.2,
           boyValue := boyAva.nadi, girlValue := girlAva.nadi, area := "Health & Progeny" }]
      let total : ℚ := (factors.map (·.score)).sum
      let verdict :=
        if total ≥ 25 then "Excellent Match"
        else if total ≥ 18 then "Good Match"
        else if total ≥ 12 then "Average Match"
        else "Below Average"
      some
        { totalScore := total, maxScore := 36,
          percentage := pyRound1 (total / 36 * 100), verdict := verdict,
          factors := factors, boyDetails := boyAva, girlDetails := girlAva }
  | _, _ => none

/-- `KundaliCalculator._to_utc_datetime` (calculator.py, lines 88-116).  The stdlib
`ZoneInfo` database is external: it is abstracted as `tzdb`, which yields the
local→UTC conversion for a recognized IANA name and `none` for an unrecognized one
(the `ZoneInfoNotFoundError`/`ValueError` caught by the `except` branch).  Naive
datetimes are modeled as rational timestamps.  In the fallback branch the source
returns `local_dt` unchanged, i.e. the civil time reinterpreted as UTC. -/
def KundaliCalculator.toUtcDatetime (tzdb : String → Option (ℚ → ℚ))
    (timezone : String) (localDt : ℚ) : ℚ :=
  match tzdb timezone with
  | some toUtc => toUtc localDt
  | none => localDt

/-- JSON-shaped Python value, the type of the `conditions` column of the `Rule`
model (a `JSON` SQLAlchemy column) and of everything the rule engine manipulates. -/
inductive Json where
  | null : Json
  | bool : Bool → Json
  | num : ℚ → Json
  | str : String → Json
  | arr : List Json → Json
  | obj : List (String × Json) → Json

/-- Python `is None` test (JSON `null` and absent-key defaults are both `None`). -/
def Json.isNull : Json → Bool
  | .null => true
  | _ => false

/-- Dict lookup `d.get(k)` on a JSON object (insertion-ordered association list). -/
def jsonGet (kvs : List (String × Json)) (k : String) : Option Json :=
  (kvs.find? (fun kv => kv.1 == k)).map (·.2)

/-- Dict lookup `d.get(k)` where a missing key yields `None` (`Json.null`). -/
def jsonGetD (kvs : List (String × Json)) (k : String) : Json :=
  (jsonGet kvs k).getD .null

/-- Python `==` between a JSON value and an int/float: numbers compare by value and
`True`/`False` equal `1`/`0`; all other types are unequal. -/
def pyEqNum (j : Json) (n : ℚ) : Bool :=
  match j with
  | .num q => q == n
  | .bool b => (if b then (1 : ℚ) else 0) == n
  | _ => false

/-- Python `==` between a JSON value and a str. -/
def pyEqStr (j : Json) (s : String) : Bool :=
  match j with
  | .str t => t == s
  | _ => false

/-- Python `==` between a JSON value and a bool (`True == 1`, `False == 0`). -/
def pyEqBool (j : Json) (b : Bool) : Bool :=
  match j with
  | .bool c => c == b
  | .num q => q == (if b then (1 : ℚ) else 0)
  | _ => false

/-- Python truthiness of a JSON value. -/
def pyTruthy : Json → Bool
  | .null => false
  | .bool b => b
  | .num q => q != 0
  | .str s => s != ""
  | .arr xs => !xs.isEmpty
  | .obj kvs => !kvs.isEmpty

/-- Python `str(...)` of a JSON value, used for the house trigger's `entity_key`.
Exact on the values reachable there (integers, bools, strings, `None`). -/
def pyStr : Json → String
  | .null => "None"
  | .bool b => if b then "True" else "False"
  | .num q => if q.den == 1 then toString q.num else toString q
  | .str s => s
  | .arr _ => "[...]"
  | .obj _ => "\x7b...\x7d"

/-- Python `pat in s` substring test. -/
def containsSubstr (s pat : String) : Bool := decide (pat.data <:+: s.data)

/-- Python `"k" in x` membership: key test on dicts, element test on lists,
substring test on strs, `TypeError` otherwise. -/
def jsonContainsKey (j : Json) (k : String) : Except PyError Bool :=
  match j with
  | .obj kvs => .ok (kvs.any (fun kv => kv.1 == k))
  | .arr xs => .ok (xs.any (fun e => pyEqStr e k))
  | .str s => .ok (containsSubstr s k)
  | _ => .error .typeError

/-- Python `for x in j`: yields list elements, dict keys, or the characters of a
str; `TypeError` for non-iterables. -/
def jsonIter (j : Json) : Except PyError (List Json) :=
  match j with
  | .arr xs => .ok xs
  | .obj kvs => .ok (kvs.map (fun kv => Json.str kv.1))
  | .str s => .ok (s.data.map (fun c => Json.str (String.mk [c])))
  | _ => .error .typeError

/-- `kundali.planets.get(planet_name)` with a JSON-valued key: unhashable keys
(`list`/`dict`) raise `TypeError`; non-str hashable keys find nothing. -/
def planetGetJ (kundali : KundaliChart) (j : Json) : Except PyError (Option PlanetPosition) :=
  match j with
  | .arr _ => .error .typeError
  | .obj _ => .error .typeError
  | .str s => .ok (kundali.getPlanet s)
  | _ => .ok none

/-- Persistence `Rule` row (`app/persistence/models/rule.py`).  Only the fields the
rule engine reads are modeled; `id`, `version`, `category`, `effects`, `is_active`
and timestamps are omitted. -/
structure Rule where
  ruleKey : String
  conditions : Json

/-- `RuleMatchResult` (rule_engine.py, lines 7-20). -/
structure RuleMatchResult where
  rule : Rule
  matched : Bool
  triggeredEntities : List Json

/-- `RuleEngine._evaluate_planet_clause` (rule_engine.py, lines 136-166). -/
def RuleEngine.evaluatePlanetClause (kundali : KundaliChart)
    (kvs : List (String × Json)) : Except PyError (Bool × Json) :=
  let planetName := jsonGetD kvs "name"
  let requiredHouse := jsonGetD kvs "house"
  let requiredSign := jsonGetD kvs "sign"
  match planetGetJ kundali planetName with
  | .error e => .error e
  | .ok none => .ok (false, .obj [])
  | .ok (some planet) =>
      if !requiredHouse.isNull && !pyEqNum requiredHouse (planet.house : ℚ) then
        .ok (false, .obj [])
      else if !requiredSign.isNull && !pyEqStr requiredSign planet.sign then
        .ok (false, .obj [])
      else
        .ok (true, .obj
          [("entity_type", .str "planet"),
           ("entity_key", planetName),
           ("snapshot", .obj
             [("sign", .str planet.sign),
              ("house", .num (planet.house : ℚ)),
              ("degree", .num planet.degree),
              ("retrograde", .bool planet.retrograde)])])

/-- `RuleEngine._evaluate_clause` (rule_engine.py, lines 112-134): only the
`"planet"` entity is supported; any other entity fails closed; `clause.get` on a
non-dict raises `AttributeError`. -/
def RuleEngine.evaluateClause (kundali : KundaliChart) (clause : Json) :
    Except PyError (Bool × Json) :=
  match clause with
  | .obj kvs =>
      if pyEqStr (jsonGetD kvs "entity") "planet" then
        RuleEngine.evaluatePlanetClause kundali kvs
      else .ok (false, .obj [])
  | _ => .error .attributeError

/-- Loop body of `RuleEngine._evaluate_all`: short-circuits on the first failing
clause, discarding partial triggers. -/
def RuleEngine.evalAllLoop (kundali : KundaliChart) :
    List Json → List Json → Except PyError (Bool × List Json)
  | [], acc => .ok (true, acc.reverse)
  | c :: rest, acc =>
      match RuleEngine.evaluateClause kundali c with
      | .error e => .error e
      | .ok (ok, trigger) =>
          if ok then RuleEngine.evalAllLoop kundali rest (trigger :: acc)
          else .ok (false, [])

/-- `RuleEngine._evaluate_all` (rule_engine.py, lines 81-94). -/
def RuleEngine.evaluateAll (kundali : KundaliChart) (clauses : Json) :
    Except PyError (Bool × List Json) :=
  match jsonIter clauses with
  | .error e => .error e
  | .ok cs => RuleEngine.evalAllLoop kundali cs []

/-- Loop body of `RuleEngine._evaluate_any`: the first matching clause wins and
only its trigger is kept. -/
def RuleEngine.evalAnyLoop (kundali : KundaliChart) :
    List Json → Except PyError (Bool × List Json)
  | [] => .ok (false, [])
  | c :: rest =>
      match RuleEngine.evaluateClause kundali c with
      | .error e => .error e
      | .ok (ok, trigger) =>
          if ok then .ok (true, [trigger])
          else RuleEngine.evalAnyLoop kundali rest

/-- `RuleEngine._evaluate_any` (rule_engine.py, lines 96-106). -/
def RuleEngine.evaluateAny (kundali : KundaliChart) (clauses : Json) :
    Except PyError (Bool × List Json) :=
  match jsonIter clauses with
  | .error e => .error e
  | .ok cs => RuleEngine.evalAnyLoop kundali cs

/-- `RuleEngine._evaluate_rule` (rule_engine.py, lines 64-79): `"all" in conditions`
then `"any" in conditions`, otherwise the unknown structure fails safely. -/
def RuleEngine.evaluateRule (kundali : KundaliChart) (conditions : Json) :
    Except PyError (Bool × List Json) :=
  match jsonContainsKey conditions "all" with
  | .error e => .error e
  | .ok true =>
      match conditions with
      | .obj kvs => RuleEngine.evaluateAll kundali (jsonGetD kvs "all")
      | _ => .error .typeError
  | .ok false =>
      match jsonContainsKey conditions "any" with
      | .error e => .error e
      | .ok true =>
          match conditions with
          | .obj kvs => RuleEngine.evaluateAny kundali (jsonGetD kvs "any")
          | _ => .error .typeError
      | .ok false => .ok (false, [])

/-- `RuleEngine.evaluate` (rule_engine.py, lines 33-58): one `RuleMatchResult` per
matching rule, in rule order; a raised exception aborts the whole evaluation. -/
def RuleEngine.evaluate (kundali : KundaliChart) :
    List Rule → Except PyError (List RuleMatchResult)
  | [] => .ok []
  | r :: rest =>
      match RuleEngine.evaluateRule kundali r.conditions with
      | .error e => .error e
      | .ok (matched, triggers) =>
          match RuleEngine.evaluate kundali rest with
          | .error e => .error e
          | .ok tailResults =>
              .ok (if matched then
                     { rule := r, matched := true, triggeredEntities := triggers } :: tailResults
                   else tailResults)

/-- Derived house strength (`app/domain/kundali/derived/schemas.py`). -/
structure HouseStrength where
  house : ℤ
  strength : String
  reasons : List String
deriving Repr, DecidableEq

/-- `DerivedAstrology` (`app/domain/kundali/derived/schemas.py`).  Only the fields
the rule matcher reads are modeled; `yogas`, `planet_strengths`, `summary` and
`calculation_version` are omitted.  `house_strengths` is a dict keyed by int. -/
structure DerivedAstrology where
  doshas : List Dosha
  houseStrengths : List (ℤ × HouseStrength)

/-- `derived.house_strengths.get(house_num)` with a JSON-valued key: unhashable
keys raise `TypeError`; int-valued floats and bools hash like the matching int. -/
def houseGetJ (m : List (ℤ × HouseStrength)) (j : Json) :
    Except PyError (Option HouseStrength) :=
  match j with
  | .arr _ => .error .typeError
  | .obj _ => .error .typeError
  | .num q => .ok (if q.den == 1 then List.lookup q.num m else none)
  | .bool b => .ok (List.lookup (if b then 1 else 0) m)
  | _ => .ok none

/-- `RuleMatcher._match_planet` (rule_matcher.py, lines 46-75): a verbatim duplicate
of `RuleEngine._evaluate_planet_clause`, embedded by reuse. -/
def RuleMatcher.matchPlanet (kundali : KundaliChart) (kvs : List (String × Json)) :
    Except PyError (Bool × Json) :=
  RuleEngine.evaluatePlanetClause kundali kvs

/-- `RuleMatcher._match_house` (rule_matcher.py, lines 81-107). -/
def RuleMatcher.matchHouse (derived : Option DerivedAstrology)
    (kvs : List (String × Json)) : Except PyError (Bool × Json) :=
  match derived with
  | none => .ok (false, .obj [])
  | some d =>
      let houseNum := jsonGetD kvs "house"
      let requiredStrength := jsonGetD kvs "strength"
      match houseGetJ d.houseStrengths houseNum with
      | .error e => .error e
      | .ok none => .ok (false, .obj [])
      | .ok (some hs) =>
          if pyTruthy requiredStrength && !pyEqStr requiredStrength hs.strength then
            .ok (false, .obj [])
          else
            .ok (true, .obj
              [("entity_type", .str "house"),
               ("entity_key", .str (pyStr houseNum)),
               ("snapshot", .obj
                 [("strength", .str hs.strength),
                  ("reasons", .arr (hs.reasons.map .str))])])

/-- `RuleMatcher._match_dosha` (rule_matcher.py, lines 113-135): the first dosha
whose name and presence both match wins; `present` defaults to `True` only when the
key is absent. -/
def RuleMatcher.matchDosha (derived : Option DerivedAstrology)
    (kvs : List (String × Json)) : Except PyError (Bool × Json) :=
  match derived with
  | none => .ok (false, .obj [])
  | some d =>
      let doshaName := jsonGetD kvs "name"
      let requiredPresent := (jsonGet kvs "present").getD (.bool true)
      match d.doshas.find? (fun dosha =>
          pyEqStr doshaName dosha.name && pyEqBool requiredPresent dosha.present) with
      | some dosha =>
          .ok (true, .obj
            [("entity_type", .str "dosha"),
             ("entity_key", doshaName),
             ("snapshot", .obj
               [("severity", match dosha.severity with | some s => .str s | none => .null),
                ("description",
                  match dosha.description with | some s => .str s | none => .null)])])
      | none => .ok (false, .obj [])

/-- `RuleMatcher.match` (rule_matcher.py, lines 16-40); named `matchCondition` since
`match` is a Lean keyword.  Unknown entity types fail closed. -/
def RuleMatcher.matchCondition (kundali : KundaliChart)
    (derived : Option DerivedAstrology) (condition : Json) :
    Except PyError (Bool × Json) :=
  match condition with
  | .obj kvs =>
      let entity := jsonGetD kvs "entity"
      if pyEqStr entity "planet" then RuleMatcher.matchPlanet kundali kvs
      else if pyEqStr entity "house" then RuleMatcher.matchHouse derived kvs
      else if pyEqStr entity "dosha" then RuleMatcher.matchDosha derived kvs
      else .ok (false, .obj [])
  | _ => .error .attributeError

/-- Shape of a successful trigger snapshot `\x7bentityType, entityKey, snapshot\x7d`
(spec §4.7). -/
def isTriggerSnapshot (t : Json) : Prop :=
  ∃ entityType entityKey snapshot,
    t = Json.obj
      [("entity_type", Json.str entityType),
       ("entity_key", entityKey),
       ("snapshot", snapshot)]

/-- Spec-side arc membership ("compute the zodiacal arc from Rahu to Ketu and from
Ketu to Rahu; present iff every non-node planet's absolute degree falls within one
of the two arcs (inclusive)"): `deg` lies on the zodiacal arc from `a` to `b`,
endpoints inclusive, wrapping past 360° when `b` precedes `a`. -/
def specArcContains (a b deg : ℚ) : Prop :=
  if a ≤ b then a ≤ deg ∧ deg ≤ b else (a ≤ deg ∨ deg ≤ b)

/-- Spec-side absolute degree of a planet: `signIndex * 30 + degreeInSign`
(spec §4.1 steps 5-6), normalized into `[0, 360)`. -/
def specAbsoluteDegree (p : PlanetPosition) : ℚ :=
  pyMod ((SIGNS.indexOf p.sign : ℚ) * 30 + p.degree) 360

/-- Sample data-model chart exercising the Kaal Sarp calculator: Rahu at Aries 1°,
Ketu at Libra 1° (diametrally opposite), the seven classical planets at Taurus 10°;
every degree is nonzero, keeping clear of `get_abs_degree`'s falsy-value crash. -/
def sampleKalsarpaChart : List (String × PlanetPosition) :=
  [("Sun", { name := "Sun", sign := "Taurus", degree := 10, house := 2, retrograde := false }),
   ("Moon", { name := "Moon", sign := "Taurus", degree := 10, house := 2, retrograde := false }),
   ("Mars", { name := "Mars", sign := "Taurus", degree := 10, house := 2, retrograde := false }),
   ("Mercury", { name := "Mercury", sign := "Taurus", degree := 10, house := 2, retrograde := false }),
   ("Jupiter", { name := "Jupiter", sign := "Taurus", degree := 10, house := 2, retrograde := false }),
   ("Venus", { name := "Venus", sign := "Taurus", degree := 10, house := 2, retrograde := false }),
   ("Saturn", { name := "Saturn", sign := "Taurus", degree := 10, house := 2, retrograde := false }),
   ("Rahu", { name := "Rahu", sign := "Aries", degree := 1, house := 1, retrograde := true }),
   ("Ketu", { name := "Ketu", sign := "Libra", degree := 1, house := 7, retrograde := true })]

/-- The Rahu entry of `sampleKalsarpaChart`. -/
def sampleRahu : PlanetPosition :=
  { name := "Rahu", sign := "Aries", degree := 1, house := 1, retrograde := true }

/-- The Ketu entry of `sampleKalsarpaChart`. -/
def sampleKetu : PlanetPosition :=
  { name := "Ketu", sign := "Libra", degree := 1, house := 7, retrograde := true }

/-- The same chart with Rahu at Aries 0° and Ketu at Libra 0°: a degree of exactly
`0.0` is falsy, so `get_abs_degree` falls through to `p.get("degree")` on a
Pydantic model and raises `AttributeError`. -/
def zeroDegreeNodesChart : List (String × PlanetPosition) :=
  [("Sun", { name := "Sun", sign := "Taurus", degree := 10, house := 2, retrograde := false }),
   ("Moon", { name := "Moon", sign := "Taurus", degree := 10, house := 2, retrograde := false }),
   ("Mars", { name := "Mars", sign := "Taurus", degree := 10, house := 2, retrograde := false }),
   ("Mercury", { name := "Mercury", sign := "Taurus", degree := 10, house := 2, retrograde := false }),
   ("Jupiter", { name := "Jupiter", sign := "Taurus", degree := 10, house := 2, retrograde := false }),
   ("Venus", { name := "Venus", sign := "Taurus", degree := 10, house := 2, retrograde := false }),
   ("Saturn", { name := "Saturn", sign := "Taurus", degree := 10, house := 2, retrograde := false }),
   ("Rahu", { name := "Rahu", sign := "Aries", degree := 0, house := 1, retrograde := true }),
   ("Ketu", { name := "Ketu", sign := "Libra", degree := 0, house := 7, retrograde := true })]

/-- Scalar (hashable, non-container) JSON values. -/
def scalarJson : Json → Bool
  | .arr _ => false
  | .obj _ => false
  | _ => true

/-- Well-shaped atomic clause: a JSON object whose field values are scalars. -/
def wellFormedClause : Json → Bool
  | .obj kvs => kvs.all (fun kv => scalarJson kv.2)
  | _ => false

/-- Well-shaped condition tree: a JSON object whose `"all"` entry (or, failing
that, `"any"` entry) is an array of well-shaped clauses; an object with neither
key is also fine (it fails safely). -/
def wellFormedConditions : Json → Bool
  | .obj kvs =>
      (match jsonGet kvs "all" with
       | some (.arr cs) => cs.all wellFormedClause
       | some _ => false
       | none =>
         match jsonGet kvs "any" with
         | some (.arr cs) => cs.all wellFormedClause
         | some _ => false
         | none => true)
  | _ => false

/-- Observable of `_evaluate_rule`: whether a rule's condition tree evaluates
true (false also when evaluation raises). -/
def ruleTreeMatches (kundali : KundaliChart) (conditions : Json) : Bool :=
  match RuleEngine.evaluateRule kundali conditions with
  | .ok (b, _) => b
  | .error _ => false

/-- Sample chart for rule evaluation: Jupiter in house 10 (spec §8 scenario). -/
def jupiterChart : KundaliChart :=
  ⟨[("Jupiter",
     { name := "Jupiter", sign := "Capricorn", degree := 15,
       house := 10, retrograde := false })]⟩

/-- Sample rule `{"all": [{"entity": "planet", "name": "Jupiter", "house": 10}]}`
(spec §8 scenario). -/
def jupiterRule : Rule :=
  { ruleKey := "career_strong_jupiter",
    conditions := Json.obj [("all", Json.arr
      [Json.obj [("entity", Json.str "planet"), ("name", Json.str "Jupiter"),
                 ("house", Json.num 10)]])] }

/-! ### Helper lemmas -/

theorem pyMod_nonneg (a : ℚ) {b : ℚ} (hb : 0 < b) : 0 ≤ pyMod a b := by
  unfold pyMod
  have h : ((⌊a / b⌋ : ℚ)) ≤ a / b := Int.floor_le (a / b)
  have h2 : ((⌊a / b⌋ : ℚ)) * b ≤ (a / b) * b := mul_le_mul_of_nonneg_right h hb.le
  rw [div_mul_cancel₀ a hb.ne'] at h2
  linarith

theorem pyMod_lt (a : ℚ) {b : ℚ} (hb : 0 < b) : pyMod a b < b := by
  unfold pyMod
  have h : a / b < (⌊a / b⌋ : ℚ) + 1 := Int.lt_floor_add_one (a / b)
  have h2 : (a / b) * b < ((⌊a / b⌋ : ℚ) + 1) * b := mul_lt_mul_of_pos_right h hb
  rw [div_mul_cancel₀ a hb.ne', add_mul, one_mul] at h2
  linarith

theorem pyMod_eq_self {a b : ℚ} (h0 : 0 ≤ a) (hab : a < b) : pyMod a b = a := by
  have hb : 0 < b := lt_of_le_of_lt h0 hab
  have hfl : ⌊a / b⌋ = 0 := by
    rw [Int.floor_eq_zero_iff]
    exact ⟨div_nonneg h0 hb.le, by rwa [div_lt_one hb]⟩
  unfold pyMod
  rw [hfl]
  push_cast
  ring

theorem pyInt_of_nonneg {q : ℚ} (h : 0 ≤ q) : pyInt q = ⌊q⌋ := by
  unfold pyInt
  exact if_pos h

theorem mem_getD {α : Type} (l : List α) (n : ℕ) (d : α) (h : n < l.length) :
    l.getD n d ∈ l := by
  rw [List.getD_eq_getElem l d h]
  exact List.getElem_mem h

theorem pyRound2_nonneg {q : ℚ} (h : 0 ≤ q) : 0 ≤ pyRound2 q := by
  unfold pyRound2
  have : (0 : ℤ) ≤ round (q * 100) := by
    rw [round_eq]
    exact Int.floor_nonneg.mpr (by linarith)
  have h2 : (0 : ℚ) ≤ ((round (q * 100) : ℤ) : ℚ) := by exact_mod_cast this
  linarith

theorem pyRound2_le_of_le {q c : ℚ} (h : q ≤ c) : pyRound2 q ≤ pyRound2 c := by
  unfold pyRound2
  have : round (q * 100) ≤ round (c * 100) := by
    rw [round_eq, round_eq]
    exact Int.floor_le_floor (by linarith)
  have h2 : ((round (q * 100) : ℤ) : ℚ) ≤ ((round (c * 100) : ℤ) : ℚ) := by exact_mod_cast this
  linarith

/-! ### C9: nakshatra resolver safety -/

/-- Claim C9: for every sign `s` and degree `d ∈ [0, 30)` — equivalently every
absolute degree in `[0, 360)` — `_calculate_nakshatra` returns one of the 27 fixed
names, in the fixed Ashwini…Revati order of `NAKSHATRAS`, and a pada in
`{1, 2, 3, 4}`. -/
theorem c9_nakshatra_resolver_safe (s : ℕ) (d : ℚ) (hs : s < 12)
    (h0 : 0 ≤ d) (h30 : d < 30) :
    ∃ (name : String) (pada : ℤ),
      calculateNakshatra (30 * s + d) = name ++ " (" ++ toString pada ++ ")" ∧
      name ∈ NAKSHATRAS ∧ 1 ≤ pada ∧ pada ≤ 4 := by
  refine ⟨nakshatraName (30 * s + d), nakshatraPada (30 * s + d), rfl, ?_, ?_⟩
  all_goals
    set q : ℚ := 30 * s + d with hq
    have hq0 : 0 ≤ q := by positivity
    have hs11 : (s : ℚ) ≤ 11 := by exact_mod_cast Nat.lt_succ_iff.mp hs
    have hq360 : q < 360 := by rw [hq]; linarith
    have hmod : pyMod q 360 = q := pyMod_eq_self hq0 hq360
    have hspan : (0 : ℚ) < nakshatraSpan := by norm_num [nakshatraSpan]
    have hidx : nakshatraIndex q = ⌊q / nakshatraSpan⌋ := by
      unfold nakshatraIndex
      rw [hmod, pyInt_of_nonneg (div_nonneg hq0 hspan.le)]
    have hidx0 : 0 ≤ ⌊q / nakshatraSpan⌋ :=
      Int.floor_nonneg.mpr (div_nonneg hq0 hspan.le)
    have hidxlt : ⌊q / nakshatraSpan⌋ < 27 := by
      apply Int.floor_lt.mpr
      rw [div_lt_iff₀ hspan]
      norm_num [nakshatraSpan]
      linarith
  · -- the looked-up name is one of the 27 table entries
    unfold nakshatraName
    apply mem_getD
    have hlen : NAKSHATRAS.length = 27 := by norm_num [NAKSHATRAS]
    rw [hlen, hidx]
    omega
  · -- pada bounds
    unfold nakshatraPada
    rw [hmod, hidx]
    set r : ℚ := q - (⌊q / nakshatraSpan⌋ : ℚ) * nakshatraSpan with hr
    have hr_eq : r = pyMod q nakshatraSpan := by unfold pyMod; rw [hr]; ring
    have hr0 : 0 ≤ r := hr_eq ▸ pyMod_nonneg q hspan
    have hrlt : r < nakshatraSpan := hr_eq ▸ pyMod_lt q hspan
    have hq4 : (0 : ℚ) < nakshatraSpan / 4 := by positivity
    have hfl0 : 0 ≤ ⌊r / (nakshatraSpan / 4)⌋ :=
      Int.floor_nonneg.mpr (div_nonneg hr0 hq4.le)
    have hfl4 : ⌊r / (nakshatraSpan / 4)⌋ < 4 := by
      apply Int.floor_lt.mpr
      push_cast
      rw [div_lt_iff₀ hq4]
      simp only [nakshatraSpan] at hrlt ⊢
      norm_num at hrlt ⊢
      linarith
    rw [pyInt_of_nonneg (div_nonneg hr0 hq4.le)]
    omega

/-- Witness for C9 at sign 0 (Aries) and degree 5. -/
theorem c9_witness :
    (0 : ℕ) < 12 ∧ (0 : ℚ) ≤ 5 ∧ (5 : ℚ) < 30 ∧
    (∃ (name : String) (pada : ℤ),
      calculateNakshatra (30 * (0 : ℕ) + 5) = name ++ " (" ++ toString pada ++ ")" ∧
      name ∈ NAKSHATRAS ∧ 1 ≤ pada ∧ pada ≤ 4) :=
  ⟨by decide, by norm_num, by norm_num,
   c9_nakshatra_resolver_safe 0 5 (by decide) (by norm_num) (by norm_num)⟩

/-! ### C7: divisional transform degree bounds -/

theorem pyRound2_bounds {x : ℚ} (h0 : 0 ≤ x) (h30 : x ≤ 30) :
    0 ≤ pyRound2 x ∧ pyRound2 x ≤ 30 := by
  refine ⟨pyRound2_nonneg h0, ?_⟩
  calc pyRound2 x ≤ pyRound2 30 := pyRound2_le_of_le h30
  _ = 30 := by norm_num [pyRound2, round_eq]

/-- Claim C7 counterexample: the claim asserts `degreeInTarget ∈ [0, 30)`, but the
final `round(·, 2)` can land exactly on 30: in D9, `degree_in_sign = 3.333` maps to
`(3.333 % (10/3)) * 9 = 29.997`, which rounds to `30.0`; in D10,
`degree_in_sign = 2.9997` likewise yields `30.0`. -/
theorem c7_counterexample :
    D9Calculator.navamshaPosition "Aries" (3333 / 1000) = some ("Aries", 30) ∧
    D10Calculator.dashamshaPosition "Aries" (29997 / 10000) = some ("Aries", 30) ∧
    ¬((30 : ℚ) < 30) := by
  refine ⟨?_, ?_, by norm_num⟩
  · unfold D9Calculator.navamshaPosition
    norm_num [SIGNS, NAVAMSHA_SPAN, pyMod, pyRound2, round_eq, List.indexOf_cons]
  · unfold D10Calculator.dashamshaPosition
    norm_num [SIGNS, DASHAMSHA_SPAN, pyMod, pyRound2, round_eq, List.indexOf_cons]

/-- Claim C7 (amended): for every valid sign and `degreeInSign ∈ [0, 30)`, the D9
and D10 transforms return a degree in the target subdivision lying in `[0, 30]`:
the pre-rounding value lies in `[0, 30)`, but rounding to two decimals can produce
exactly `30.0`. -/
theorem c7_divisional_degree_bounds (sign : String) (d : ℚ)
    (hsign : sign ∈ SIGNS) (h0 : 0 ≤ d) (h30 : d < 30) :
    (∃ s9 q9, D9Calculator.navamshaPosition sign d = some (s9, q9) ∧
      0 ≤ q9 ∧ q9 ≤ 30) ∧
    (∃ s10 q10, D10Calculator.dashamshaPosition sign d = some (s10, q10) ∧
      0 ≤ q10 ∧ q10 ≤ 30) := by
  constructor
  · have hspan : (0 : ℚ) < NAVAMSHA_SPAN := by norm_num [NAVAMSHA_SPAN]
    have hm0 : 0 ≤ pyMod d NAVAMSHA_SPAN := pyMod_nonneg d hspan
    have hmlt : pyMod d NAVAMSHA_SPAN < NAVAMSHA_SPAN := pyMod_lt d hspan
    have hx0 : 0 ≤ pyMod d NAVAMSHA_SPAN * (30 / NAVAMSHA_SPAN) := by
      apply mul_nonneg hm0
      norm_num [NAVAMSHA_SPAN]
    have hx30 : pyMod d NAVAMSHA_SPAN * (30 / NAVAMSHA_SPAN) ≤ 30 := by
      have h9 : (30 : ℚ) / NAVAMSHA_SPAN = 9 := by norm_num [NAVAMSHA_SPAN]
      rw [h9]
      have hsp : NAVAMSHA_SPAN * 9 = 30 := by norm_num [NAVAMSHA_SPAN]
      nlinarith [hmlt]
    unfold D9Calculator.navamshaPosition
    rw [if_pos hsign]
    exact ⟨_, _, rfl, (pyRound2_bounds hx0 hx30).1, (pyRound2_bounds hx0 hx30).2⟩
  · have hspan : (0 : ℚ) < DASHAMSHA_SPAN := by norm_num [DASHAMSHA_SPAN]
    have hm0 : 0 ≤ pyMod d DASHAMSHA_SPAN := pyMod_nonneg d hspan
    have hmlt : pyMod d DASHAMSHA_SPAN < DASHAMSHA_SPAN := pyMod_lt d hspan
    have hx0 : 0 ≤ pyMod d DASHAMSHA_SPAN * (30 / DASHAMSHA_SPAN) := by
      apply mul_nonneg hm0
      norm_num [DASHAMSHA_SPAN]
    have hx30 : pyMod d DASHAMSHA_SPAN * (30 / DASHAMSHA_SPAN) ≤ 30 := by
      have h10 : (30 : ℚ) / DASHAMSHA_SPAN = 10 := by norm_num [DASHAMSHA_SPAN]
      rw [h10]
      have hsp : DASHAMSHA_SPAN * 10 = 30 := by norm_num [DASHAMSHA_SPAN]
      nlinarith [hmlt]
    unfold D10Calculator.dashamshaPosition
    rw [if_pos hsign]
    exact ⟨_, _, rfl, (pyRound2_bounds hx0 hx30).1, (pyRound2_bounds hx0 hx30).2⟩

/-- Witness for C7 (amended) at Aries 5°. -/
theorem c7_witness :
    "Aries" ∈ SIGNS ∧ (0 : ℚ) ≤ 5 ∧ (5 : ℚ) < 30 ∧
    ((∃ s9 q9, D9Calculator.navamshaPosition "Aries" 5 = some (s9, q9) ∧
        0 ≤ q9 ∧ q9 ≤ 30) ∧
     (∃ s10 q10, D10Calculator.dashamshaPosition "Aries" 5 = some (s10, q10) ∧
        0 ≤ q10 ∧ q10 ≤ 30)) :=
  ⟨by decide, by norm_num, by norm_num,
   c7_divisional_degree_bounds "Aries" 5 (by decide) (by norm_num) (by norm_num)⟩

/-! ### C10: timezone fallback to UTC -/

/-- Claim C10: for every unrecognized IANA timezone string (one the zone database
does not resolve), `_to_utc_datetime` does not abort: it returns the civil birth
date-time unchanged, interpreted as UTC — the documented, intentional fallback
(the `except ZoneInfoNotFoundError / ValueError` branch), and the calculation
proceeds with this value. -/
theorem c10_timezone_fallback_to_utc (tzdb : String → Option (ℚ → ℚ))
    (timezone : String) (localDt : ℚ) (h : tzdb timezone = none) :
    KundaliCalculator.toUtcDatetime tzdb timezone localDt = localDt := by
  unfold KundaliCalculator.toUtcDatetime
  rw [h]

/-- Witness for C10: a database recognizing only "UTC", queried with an
unrecognized zone name. -/
theorem c10_witness :
    (fun s => if s == "UTC" then some (fun d : ℚ => d) else none) "Mars/Olympus"
      = none ∧
    KundaliCalculator.toUtcDatetime
      (fun s => if s == "UTC" then some (fun d : ℚ => d) else none)
      "Mars/Olympus" 42 = 42 :=
  ⟨rfl, c10_timezone_fallback_to_utc _ _ _ rfl⟩

/-! ### C1: Mangal Dosha -/

/-- Claim C1 counterexample: with Mars in house 2 — a house in the claim's set
`{1, 2, 4, 7, 8, 12}` — the derived-facts engine reports Mangal Dosha absent,
because its `MANGAL_DOSHA_HOUSES` is `{1, 4, 7, 8, 12}`. -/
theorem c1_counterexample :
    (DoshaCalculator.calculateMangalDosha
      { planets := [("Mars",
          { name := "Mars", sign := "Taurus", degree := 10,
            house := 2, retrograde := false })] }).present = false ∧
    (2 : ℤ) ∈ ([1, 2, 4, 7, 8, 12] : List ℤ) := by
  exact ⟨by decide, by decide⟩

/-- Claim C1 (amended): for every chart containing Mars, the derived Mangal Dosha
fact is present iff Mars' house lies in `{1, 4, 7, 8, 12}` — the engine's
`MANGAL_DOSHA_HOUSES`, which omits house 2 — and whenever present its severity is
"medium". -/
theorem c1_mangal_dosha (kundali : KundaliChart) (mars : PlanetPosition)
    (hm : kundali.getPlanet "Mars" = some mars) :
    ((DoshaCalculator.calculateMangalDosha kundali).present = true ↔
      mars.house ∈ MANGAL_DOSHA_HOUSES) ∧
    ((DoshaCalculator.calculateMangalDosha kundali).present = true →
      (DoshaCalculator.calculateMangalDosha kundali).severity = some "medium") := by
  unfold DoshaCalculator.calculateMangalDosha
  rw [hm]
  by_cases h : mars.house ∈ MANGAL_DOSHA_HOUSES
  · simp [h]
  · simp [h]

/-- Witness for C1 (amended): Mars in house 1 yields a present, medium-severity
Mangal Dosha. -/
theorem c1_witness :
    (KundaliChart.mk [("Mars",
        { name := "Mars", sign := "Aries", degree := 5,
          house := 1, retrograde := false })]).getPlanet "Mars"
      = some { name := "Mars", sign := "Aries", degree := 5,
               house := 1, retrograde := false } ∧
    (((DoshaCalculator.calculateMangalDosha (KundaliChart.mk [("Mars",
        { name := "Mars", sign := "Aries", degree := 5,
          house := 1, retrograde := false })])).present = true ↔
      (1 : ℤ) ∈ MANGAL_DOSHA_HOUSES) ∧
     ((DoshaCalculator.calculateMangalDosha (KundaliChart.mk [("Mars",
        { name := "Mars", sign := "Aries", degree := 5,
          house := 1, retrograde := false })])).present = true →
      (DoshaCalculator.calculateMangalDosha (KundaliChart.mk [("Mars",
        { name := "Mars", sign := "Aries", degree := 5,
          house := 1, retrograde := false })])).severity = some "medium")) :=
  ⟨by decide,
   c1_mangal_dosha
     (KundaliChart.mk [("Mars", ⟨"Mars", "Aries", 5, 1, false⟩)])
     ⟨"Mars", "Aries", 5, 1, false⟩ (by decide)⟩

/-! ### C6: Ashwini-cycle balance Dasha -/

/-- Claim C6 counterexample: at Moon absolute degree 0 the nakshatra index mod 9
is 0, the first Dasha lord is Ketu, but the balance duration is exactly 7 years —
not strictly less than 7 as claimed. -/
theorem c6_counterexample :
    moonNakshatraIdx 0 % 9 = 0 ∧
    ∃ e rest, KundaliCalculator.calculateVimshottariDasha 0 = e :: rest ∧
      e.lord = "Ketu" ∧ e.durationYears = 7 ∧ ¬(e.durationYears < 7) := by
  have hidx : moonNakshatraIdx 0 = 0 := by
    norm_num [moonNakshatraIdx, moonLonOf, pyMod, pyInt, nakshatraSpan]
  have hstart : startLord 0 = ("Ketu", 7) := by
    norm_num [startLord, startLordIdx, hidx, dashaLords]
  have hbal : balanceYears 0 = 7 := by
    have htrav : traversedArc 0 = 0 := by
      norm_num [traversedArc, moonLonOf, pyMod, hidx, nakshatraSpan]
    norm_num [balanceYears, hstart, htrav]
  refine ⟨by rw [hidx]; decide, ?_⟩
  refine ⟨_, _, rfl, ?_, ?_, ?_⟩
  · show (startLord 0).1 = "Ketu"
    rw [hstart]
  · show pyRound2 (balanceYears 0) = 7
    rw [hbal]
    norm_num [pyRound2, round_eq]
  · show ¬(pyRound2 (balanceYears 0) < 7)
    rw [hbal]
    norm_num [pyRound2, round_eq]

/-- Claim C6 (amended): for every Moon absolute degree whose nakshatra index mod 9
is 0 (an Ashwini-cycle start), the first emitted Dasha period has lord Ketu and its
balance duration is at most 7 years — exactly 7 when the Moon sits precisely at the
nakshatra's start, strictly less otherwise; the emitted `duration_years` field is
that balance rounded to two decimals. -/
theorem c6_ashwini_start_balance (moonDegree : ℚ)
    (h9 : moonNakshatraIdx moonDegree % 9 = 0) :
    ∃ e rest, KundaliCalculator.calculateVimshottariDasha moonDegree = e :: rest ∧
      e.lord = "Ketu" ∧
      balanceYears moonDegree ≤ 7 ∧
      (balanceYears moonDegree = 7 ↔ traversedArc moonDegree = 0) ∧
      e.durationYears = pyRound2 (balanceYears moonDegree) := by
  have hstart : startLord moonDegree = ("Ketu", 7) := by
    unfold startLord startLordIdx
    rw [h9]
    rfl
  have hspan : (0 : ℚ) < nakshatraSpan := by norm_num [nakshatraSpan]
  have hlon0 : 0 ≤ moonLonOf moonDegree := pyMod_nonneg _ (by norm_num)
  have htrav_eq : traversedArc moonDegree = pyMod (moonLonOf moonDegree) nakshatraSpan := by
    unfold traversedArc moonNakshatraIdx pyMod
    rw [pyInt_of_nonneg (div_nonneg hlon0 hspan.le)]
    ring
  have ht0 : 0 ≤ traversedArc moonDegree := htrav_eq ▸ pyMod_nonneg _ hspan
  have htlt : traversedArc moonDegree < nakshatraSpan := htrav_eq ▸ pyMod_lt _ hspan
  have hbal : balanceYears moonDegree =
      7 * (1 - traversedArc moonDegree / nakshatraSpan) := by
    unfold balanceYears
    rw [hstart]
    norm_num
  refine ⟨_, _, rfl, ?_, ?_, ?_, ?_⟩
  · show (startLord moonDegree).1 = "Ketu"
    rw [hstart]
  · rw [hbal]
    have hq : 0 ≤ traversedArc moonDegree / nakshatraSpan :=
      div_nonneg ht0 hspan.le
    linarith
  · rw [hbal]
    constructor
    · intro h
      have hq : traversedArc moonDegree / nakshatraSpan = 0 := by linarith
      have := (div_eq_zero_iff.mp hq).resolve_right hspan.ne'
      exact this
    · intro h
      rw [h]
      norm_num
  · show pyRound2 (balanceYears moonDegree) = pyRound2 (balanceYears moonDegree)
    rfl

/-- Witness for C6 (amended) at Moon absolute degree 125 (inside Magha, nakshatra
index 9). -/
theorem c6_witness :
    moonNakshatraIdx 125 % 9 = 0 ∧
    (∃ e rest, KundaliCalculator.calculateVimshottariDasha 125 = e :: rest ∧
      e.lord = "Ketu" ∧
      balanceYears 125 ≤ 7 ∧
      (balanceYears 125 = 7 ↔ traversedArc 125 = 0) ∧
      e.durationYears = pyRound2 (balanceYears 125)) := by
  have h : moonNakshatraIdx 125 % 9 = 0 := by
    norm_num [moonNakshatraIdx, moonLonOf, pyMod, pyInt, nakshatraSpan]
  exact ⟨h, c6_ashwini_start_balance 125 h⟩

/-! ### C2: Antardasha sums -/

theorem antarSum_Ketu :
    antarMonthsSum (KundaliCalculator.calculateAntardashas "Ketu" 7) = 84 := by
  have hidx : dashaLords.findIdx (fun v => v.1 == "Ketu") = 0 := by decide
  simp only [antarMonthsSum, KundaliCalculator.calculateAntardashas]
  rw [hidx]
  norm_num [dashaLords, pyRound2, round_eq, List.range_succ]

theorem antarSum_Venus :
    antarMonthsSum (KundaliCalculator.calculateAntardashas "Venus" 20) = 240 := by
  have hidx : dashaLords.findIdx (fun v => v.1 == "Venus") = 1 := by decide
  simp only [antarMonthsSum, KundaliCalculator.calculateAntardashas]
  rw [hidx]
  norm_num [dashaLords, pyRound2, round_eq, List.range_succ]

theorem antarSum_Sun :
    antarMonthsSum (KundaliCalculator.calculateAntardashas "Sun" 6) = 72 := by
  have hidx : dashaLords.findIdx (fun v => v.1 == "Sun") = 2 := by decide
  simp only [antarMonthsSum, KundaliCalculator.calculateAntardashas]
  rw [hidx]
  norm_num [dashaLords, pyRound2, round_eq, List.range_succ]

theorem antarSum_Moon :
    antarMonthsSum (KundaliCalculator.calculateAntardashas "Moon" 10) = 120 := by
  have hidx : dashaLords.findIdx (fun v => v.1 == "Moon") = 3 := by decide
  simp only [antarMonthsSum, KundaliCalculator.calculateAntardashas]
  rw [hidx]
  norm_num [dashaLords, pyRound2, round_eq, List.range_succ]

theorem antarSum_Mars :
    antarMonthsSum (KundaliCalculator.calculateAntardashas "Mars" 7) = 84 := by
  have hidx : dashaLords.findIdx (fun v => v.1 == "Mars") = 4 := by decide
  simp only [antarMonthsSum, KundaliCalculator.calculateAntardashas]
  rw [hidx]
  norm_num [dashaLords, pyRound2, round_eq, List.range_succ]

theorem antarSum_Rahu :
    antarMonthsSum (KundaliCalculator.calculateAntardashas "Rahu" 18) = 216 := by
  have hidx : dashaLords.findIdx (fun v => v.1 == "Rahu") = 5 := by decide
  simp only [antarMonthsSum, KundaliCalculator.calculateAntardashas]
  rw [hidx]
  norm_num [dashaLords, pyRound2, round_eq, List.range_succ]

theorem antarSum_Jupiter :
    antarMonthsSum (KundaliCalculator.calculateAntardashas "Jupiter" 16) = 192 := by
  have hidx : dashaLords.findIdx (fun v => v.1 == "Jupiter") = 6 := by decide
  simp only [antarMonthsSum, KundaliCalculator.calculateAntardashas]
  rw [hidx]
  norm_num [dashaLords, pyRound2, round_eq, List.range_succ]

theorem antarSum_Saturn :
    antarMonthsSum (KundaliCalculator.calculateAntardashas "Saturn" 19) = 228 := by
  have hidx : dashaLords.findIdx (fun v => v.1 == "Saturn") = 7 := by decide
  simp only [antarMonthsSum, KundaliCalculator.calculateAntardashas]
  rw [hidx]
  norm_num [dashaLords, pyRound2, round_eq, List.range_succ]

theorem antarSum_Mercury :
    antarMonthsSum (KundaliCalculator.calculateAntardashas "Mercury" 17) = 204 := by
  have hidx : dashaLords.findIdx (fun v => v.1 == "Mercury") = 8 := by decide
  simp only [antarMonthsSum, KundaliCalculator.calculateAntardashas]
  rw [hidx]
  norm_num [dashaLords, pyRound2, round_eq, List.range_succ]

theorem antarSum_getD (j : ℕ) (hj : j < 9) :
    antarMonthsSum (KundaliCalculator.calculateAntardashas
      (dashaLords.getD j ("", 0)).1 (dashaLords.getD j ("", 0)).2)
      = 12 * ((dashaLords.getD j ("", 0)).2 : ℚ) := by
  interval_cases j <;>
    norm_num [dashaLords, antarSum_Ketu, antarSum_Venus, antarSum_Sun, antarSum_Moon,
      antarSum_Mars, antarSum_Rahu, antarSum_Jupiter, antarSum_Saturn, antarSum_Mercury]

/-- Claim C2 counterexample: at Moon absolute degree 10 (mid-Ashwini) the balance
Mahadasha has duration 1.75 years, but its 9 Antardashas are generated for Ketu's
full 7-year period (84 months), so their sum misses the parent duration by 5.25
years — far beyond the 0.01-year tolerance. -/
theorem c2_counterexample :
    ∃ e rest, KundaliCalculator.calculateVimshottariDasha 10 = e :: rest ∧
      e.durationYears = 7 / 4 ∧ antarMonthsSum e.antardashas = 84 ∧
      ¬(|antarMonthsSum e.antardashas / 12 - e.durationYears| ≤ 1 / 100) := by
  have hs : startLord 10 = ("Ketu", 7) := by
    norm_num [startLord, startLordIdx, moonNakshatraIdx, moonLonOf, pyMod, pyInt,
      nakshatraSpan, dashaLords]
  have hd : pyRound2 (balanceYears 10) = 7 / 4 := by
    norm_num [balanceYears, hs, traversedArc, moonNakshatraIdx, moonLonOf, pyMod,
      pyInt, nakshatraSpan, pyRound2, round_eq]
  have ha : antarMonthsSum (KundaliCalculator.calculateAntardashas
      (startLord 10).1 (startLord 10).2) = 84 := by
    rw [hs]
    exact antarSum_Ketu
  refine ⟨_, _, rfl, hd, ha, ?_⟩
  rw [ha, hd]
  rw [show (84 : ℚ) / 12 - 7 / 4 = 21 / 4 by norm_num]
  rw [abs_of_nonneg (by norm_num : (0 : ℚ) ≤ 21 / 4)]
  norm_num

/-- Claim C2 (amended): for every non-balance Mahadasha emitted by the Vimshottari
timeline, the sum of its 9 Antardasha durations equals its own duration exactly
(hence within the 0.01-year tolerance); the first, balance Mahadasha's Antardashas
instead sum to its lord's full-period length, not to the balance duration. -/
theorem c2_antardasha_sums (moonDegree : ℚ) :
    (∀ e ∈ (KundaliCalculator.calculateVimshottariDasha moonDegree).tail,
      antarMonthsSum e.antardashas / 12 = e.durationYears ∧
      |antarMonthsSum e.antardashas / 12 - e.durationYears| ≤ 1 / 100) ∧
    (∀ e rest, KundaliCalculator.calculateVimshottariDasha moonDegree = e :: rest →
      antarMonthsSum e.antardashas = 12 * ((startLord moonDegree).2 : ℚ)) := by
  constructor
  · intro e he
    simp only [KundaliCalculator.calculateVimshottariDasha, List.tail_cons] at he
    obtain ⟨i, hi, rfl⟩ := List.mem_map.mp he
    dsimp only
    have hj9 : (startLordIdx moonDegree + i) % 9 < 9 := Nat.mod_lt _ (by norm_num)
    have hsum := antarSum_getD ((startLordIdx moonDegree + i) % 9) hj9
    rw [hsum]
    constructor
    · ring
    · simp
  · intro e rest heq
    simp only [KundaliCalculator.calculateVimshottariDasha, List.cons.injEq] at heq
    rw [← heq.1]
    dsimp only
    have hj9 : startLordIdx moonDegree < 9 := by
      unfold startLordIdx
      have h1 : 0 ≤ moonNakshatraIdx moonDegree % 9 := Int.emod_nonneg _ (by norm_num)
      have h2 : moonNakshatraIdx moonDegree % 9 < 9 := Int.emod_lt_of_pos _ (by norm_num)
      omega
    have := antarSum_getD (startLordIdx moonDegree) hj9
    unfold startLord
    exact this

/-- Witness for C2 (amended) at Moon absolute degree 10. -/
theorem c2_witness :
    (∀ e ∈ (KundaliCalculator.calculateVimshottariDasha 10).tail,
      antarMonthsSum e.antardashas / 12 = e.durationYears ∧
      |antarMonthsSum e.antardashas / 12 - e.durationYears| ≤ 1 / 100) ∧
    (∀ e rest, KundaliCalculator.calculateVimshottariDasha 10 = e :: rest →
      antarMonthsSum e.antardashas = 12 * ((startLord 10).2 : ℚ)) :=
  c2_antardasha_sums 10

/-! ### C5: Kaal Sarp Dosha -/

theorem pyMod_add_180_ne (a : ℚ) : pyMod (a + 180) 360 ≠ pyMod a 360 := by
  intro h
  unfold pyMod at h
  have hq : (360 : ℚ) * (((⌊(a + 180) / 360⌋ : ℤ) : ℚ) - ((⌊a / 360⌋ : ℤ) : ℚ)) = 180 := by
    linarith
  have hz : (360 : ℤ) * (⌊(a + 180) / 360⌋ - ⌊a / 360⌋) = 180 := by
    exact_mod_cast hq
  omega

theorem inArc_iff {s e : ℚ} (deg : ℚ) (hne : s ≠ e) :
    inArc deg s e = true ↔ specArcContains s e deg := by
  unfold inArc specArcContains
  by_cases h : s < e
  · rw [if_pos h, if_pos h.le]
    simp [Bool.and_eq_true, decide_eq_true_iff]
  · have h2 : ¬s ≤ e := fun hle => h (lt_of_le_of_ne hle hne)
    rw [if_neg h, if_neg h2]
    simp [Bool.or_eq_true, decide_eq_true_iff, ge_iff_le]

theorem sign_mem_ne_empty {s : String} (h : s ∈ SIGNS) : ¬s = "" := by
  intro he
  subst he
  revert h
  decide

theorem getAbsDegree_ok {p : PlanetPosition} (hsign : p.sign ∈ SIGNS)
    (hdeg : p.degree ≠ 0) :
    getAbsDegree p = Except.ok ((SIGNS.indexOf p.sign : ℚ) * 30 + p.degree) := by
  unfold getAbsDegree
  rw [if_neg (sign_mem_ne_empty hsign), if_neg hdeg, if_pos hsign]

theorem specAbsoluteDegree_eq (p : PlanetPosition) :
    pyMod ((SIGNS.indexOf p.sign : ℚ) * 30 + p.degree) 360 = specAbsoluteDegree p := rfl

theorem kalsarpaOthers_ok (planets : List (String × PlanetPosition))
    (h : ∀ p ∈ planets, p.2.sign ∈ SIGNS ∧ p.2.degree ≠ 0) :
    kalsarpaOthers planets =
      Except.ok ((planets.filter (fun p => decide (p.1 ∉ KALSARPA_EXCLUDED))).map
        (fun p => specAbsoluteDegree p.2)) := by
  induction planets with
  | nil => rfl
  | cons p rest ih =>
      have hp := h p (List.mem_cons_self p rest)
      have hrest : ∀ q ∈ rest, q.2.sign ∈ SIGNS ∧ q.2.degree ≠ 0 :=
        fun q hq => h q (List.mem_cons_of_mem p hq)
      simp only [kalsarpaOthers]
      by_cases hex : p.1 ∈ KALSARPA_EXCLUDED
      · rw [if_pos hex, ih hrest, List.filter_cons,
          if_neg (by simp only [decide_eq_true_eq, not_not]; exact hex)]
      · rw [if_neg hex, getAbsDegree_ok hp.1 hp.2]
        dsimp only
        rw [ih hrest]
        dsimp only
        rw [List.filter_cons, if_pos (by simp only [decide_eq_true_eq]; exact hex)]
        rfl

theorem kalsarpa_all_iff (planets : List (String × PlanetPosition))
    (houter : ∀ p ∈ planets, p.1 ∉ (["Uranus", "Neptune", "Pluto"] : List String))
    (f : ℚ → Bool) :
    (((planets.filter (fun p => decide (p.1 ∉ KALSARPA_EXCLUDED))).map
        (fun p => specAbsoluteDegree p.2)).all f = true ↔
      ∀ p ∈ planets, p.1 ∉ (["Rahu", "Ketu"] : List String) →
        f (specAbsoluteDegree p.2) = true) := by
  rw [List.all_eq_true]
  constructor
  · intro h p hp hnode
    apply h
    refine List.mem_map.mpr ⟨p, List.mem_filter.mpr ⟨hp, ?_⟩, rfl⟩
    have h3 := houter p hp
    simp only [KALSARPA_EXCLUDED, decide_eq_true_iff]
    simp only [List.mem_cons, List.mem_singleton, List.not_mem_nil] at hnode h3 ⊢
    tauto
  · intro h x hx
    obtain ⟨p, hpf, rfl⟩ := List.mem_map.mp hx
    obtain ⟨hp, hdec⟩ := List.mem_filter.mp hpf
    apply h p hp
    simp only [KALSARPA_EXCLUDED, decide_eq_true_iff] at hdec
    simp only [List.mem_cons, List.mem_singleton, List.not_mem_nil] at hdec ⊢
    tauto

set_option maxHeartbeats 1600000 in
/-- Claim C5 (amended): for every chart containing Rahu and Ketu (together with the
data-model guarantees: at least one non-node planet, no outer planets, valid sign
names, Ketu diametrally opposite Rahu) in which every planet sits at a nonzero
degree within its sign, the calculator returns normally, and Kaal Sarp Dosha is
reported present iff every non-node planet's absolute degree lies on the inclusive
zodiacal arc from Rahu to Ketu, or every such degree lies on the inclusive arc from
Ketu to Rahu; when present, the result's `type` reports which arc direction
matched.  The nonzero-degree restriction is necessary: a degree of exactly `0.0`
is falsy in Python, so `get_abs_degree` falls through from `getattr` to `p.get`
on the Pydantic planet models every caller passes and raises `AttributeError`
(see `c5_counterexample`). -/
theorem c5_kalsarpa_dosha (planets : List (String × PlanetPosition))
    (rahu ketu : PlanetPosition)
    (hr : plookup planets "Rahu" = some rahu)
    (hk : plookup planets "Ketu" = some ketu)
    (hsigns : ∀ p ∈ planets, p.2.sign ∈ SIGNS)
    (hdegs : ∀ p ∈ planets, p.2.degree ≠ 0)
    (houter : ∀ p ∈ planets, p.1 ∉ (["Uranus", "Neptune", "Pluto"] : List String))
    (hsome : ∃ p ∈ planets, p.1 ∉ (["Rahu", "Ketu"] : List String))
    (hopp : specAbsoluteDegree ketu = pyMod (specAbsoluteDegree rahu + 180) 360) :
    ∃ res, KundaliCalculator.calculateKalsarpaDosha planets = Except.ok res ∧
      (res.present = true ↔
        ((∀ p ∈ planets, p.1 ∉ (["Rahu", "Ketu"] : List String) →
            specArcContains (specAbsoluteDegree rahu) (specAbsoluteDegree ketu)
              (specAbsoluteDegree p.2)) ∨
         (∀ p ∈ planets, p.1 ∉ (["Rahu", "Ketu"] : List String) →
            specArcContains (specAbsoluteDegree ketu) (specAbsoluteDegree rahu)
              (specAbsoluteDegree p.2)))) ∧
      (res.present = true →
        ((res.type = some "Anant (Rahu to Ketu)" ∧
          (∀ p ∈ planets, p.1 ∉ (["Rahu", "Ketu"] : List String) →
            specArcContains (specAbsoluteDegree rahu) (specAbsoluteDegree ketu)
              (specAbsoluteDegree p.2))) ∨
         (res.type = some "Kulat (Ketu to Rahu)" ∧
          (∀ p ∈ planets, p.1 ∉ (["Rahu", "Ketu"] : List String) →
            specArcContains (specAbsoluteDegree ketu) (specAbsoluteDegree rahu)
              (specAbsoluteDegree p.2))))) := by
  have hr2 : ∃ a, planets.find? (fun p => p.1 == "Rahu") = some a ∧ a.2 = rahu := by
    simpa only [plookup, Option.map_eq_some'] using hr
  have hk2 : ∃ a, planets.find? (fun p => p.1 == "Ketu") = some a ∧ a.2 = ketu := by
    simpa only [plookup, Option.map_eq_some'] using hk
  obtain ⟨qr, hqrf, hqr2⟩ := hr2
  obtain ⟨qk, hqkf, hqk2⟩ := hk2
  have hqrmem : qr ∈ planets := List.mem_of_find?_eq_some hqrf
  have hqkmem : qk ∈ planets := List.mem_of_find?_eq_some hqkf
  have hrs : rahu.sign ∈ SIGNS := hqr2 ▸ hsigns qr hqrmem
  have hrd : rahu.degree ≠ 0 := hqr2 ▸ hdegs qr hqrmem
  have hks : ketu.sign ∈ SIGNS := hqk2 ▸ hsigns qk hqkmem
  have hkd : ketu.degree ≠ 0 := hqk2 ▸ hdegs qk hqkmem
  have hra := getAbsDegree_ok hrs hrd
  have hka := getAbsDegree_ok hks hkd
  have hothers := kalsarpaOthers_ok planets (fun p hp => ⟨hsigns p hp, hdegs p hp⟩)
  have hr0 : (0 : ℚ) ≤ specAbsoluteDegree rahu := by
    unfold specAbsoluteDegree
    exact pyMod_nonneg _ (by norm_num)
  have hr360 : specAbsoluteDegree rahu < 360 := by
    unfold specAbsoluteDegree
    exact pyMod_lt _ (by norm_num)
  have hne : specAbsoluteDegree rahu ≠ specAbsoluteDegree ketu := by
    intro h
    apply pyMod_add_180_ne (specAbsoluteDegree rahu)
    calc pyMod (specAbsoluteDegree rahu + 180) 360
        = specAbsoluteDegree ketu := hopp.symm
      _ = specAbsoluteDegree rahu := h.symm
      _ = pyMod (specAbsoluteDegree rahu) 360 := (pyMod_eq_self hr0 hr360).symm
  have hAiff := kalsarpa_all_iff planets houter
    (fun d => inArc d (specAbsoluteDegree rahu) (specAbsoluteDegree ketu))
  have hBiff := kalsarpa_all_iff planets houter
    (fun d => inArc d (specAbsoluteDegree ketu) (specAbsoluteDegree rahu))
  have hAconv : (∀ p ∈ planets, p.1 ∉ (["Rahu", "Ketu"] : List String) →
      inArc (specAbsoluteDegree p.2) (specAbsoluteDegree rahu)
        (specAbsoluteDegree ketu) = true) ↔
      (∀ p ∈ planets, p.1 ∉ (["Rahu", "Ketu"] : List String) →
      specArcContains (specAbsoluteDegree rahu) (specAbsoluteDegree ketu)
        (specAbsoluteDegree p.2)) := by
    constructor <;> intro h p hp hn
    · exact (inArc_iff _ hne).mp (h p hp hn)
    · exact (inArc_iff _ hne).mpr (h p hp hn)
  have hBconv : (∀ p ∈ planets, p.1 ∉ (["Rahu", "Ketu"] : List String) →
      inArc (specAbsoluteDegree p.2) (specAbsoluteDegree ketu)
        (specAbsoluteDegree rahu) = true) ↔
      (∀ p ∈ planets, p.1 ∉ (["Rahu", "Ketu"] : List String) →
      specArcContains (specAbsoluteDegree ketu) (specAbsoluteDegree rahu)
        (specAbsoluteDegree p.2)) := by
    constructor <;> intro h p hp hn
    · exact (inArc_iff _ (Ne.symm hne)).mp (h p hp hn)
    · exact (inArc_iff _ (Ne.symm hne)).mpr (h p hp hn)
  have hnonempty : ((planets.filter (fun p => decide (p.1 ∉ KALSARPA_EXCLUDED))).map
      (fun p => specAbsoluteDegree p.2)).isEmpty = false := by
    obtain ⟨p, hp, hn⟩ := hsome
    have hmem : specAbsoluteDegree p.2 ∈
        (planets.filter (fun p => decide (p.1 ∉ KALSARPA_EXCLUDED))).map
          (fun p => specAbsoluteDegree p.2) := by
      refine List.mem_map.mpr ⟨p, List.mem_filter.mpr ⟨hp, ?_⟩, rfl⟩
      have h3 := houter p hp
      simp only [KALSARPA_EXCLUDED, decide_eq_true_iff]
      simp only [List.mem_cons, List.mem_singleton, List.not_mem_nil] at hn h3 ⊢
      tauto
    rcases hl : (planets.filter (fun p => decide (p.1 ∉ KALSARPA_EXCLUDED))).map
        (fun p => specAbsoluteDegree p.2) with _ | ⟨a, l⟩
    · rw [hl] at hmem
      exact absurd hmem (List.not_mem_nil _)
    · rw [hl]
      rfl
  unfold KundaliCalculator.calculateKalsarpaDosha
  rw [hr, hk]
  dsimp only
  rw [hra]
  dsimp only
  rw [hka]
  dsimp only
  rw [hothers]
  dsimp only
  rw [specAbsoluteDegree_eq rahu, specAbsoluteDegree_eq ketu, hnonempty]
  by_cases hA : ((planets.filter (fun p => decide (p.1 ∉ KALSARPA_EXCLUDED))).map
      (fun p => specAbsoluteDegree p.2)).all
        (fun d => inArc d (specAbsoluteDegree rahu) (specAbsoluteDegree ketu)) = true
  · rw [if_neg (by simp), if_pos hA]
    refine ⟨_, rfl, ?_, ?_⟩
    · constructor
      · intro _
        exact Or.inl (hAconv.mp (hAiff.mp hA))
      · intro _
        rfl
    · intro _
      exact Or.inl ⟨rfl, hAconv.mp (hAiff.mp hA)⟩
  · by_cases hB : ((planets.filter (fun p => decide (p.1 ∉ KALSARPA_EXCLUDED))).map
        (fun p => specAbsoluteDegree p.2)).all
          (fun d => inArc d (specAbsoluteDegree ketu) (specAbsoluteDegree rahu)) = true
    · rw [if_neg (by simp), if_neg hA, if_pos hB]
      refine ⟨_, rfl, ?_, ?_⟩
      · constructor
        · intro _
          exact Or.inr (hBconv.mp (hBiff.mp hB))
        · intro _
          rfl
      · intro _
        exact Or.inr ⟨rfl, hBconv.mp (hBiff.mp hB)⟩
    · rw [if_neg (by simp), if_neg hA, if_neg hB]
      refine ⟨_, rfl, ?_, ?_⟩
      · constructor
        · intro hcontra
          exact absurd hcontra (by decide)
        · intro hcontra
          rcases hcontra with h | h
          · exact absurd (hAiff.mpr (hAconv.mpr h)) hA
          · exact absurd (hBiff.mpr (hBconv.mpr h)) hB
      · intro hcontra
        exact absurd hcontra (by decide)

/-- C5 counterexample: the claim as stated fails on charts whose nodes sit at
exactly 0° of their signs.  `0.0` is falsy, so `get_abs_degree`'s
`getattr(p, "degree", None) or p.get("degree")` falls through to `.get` on the
Pydantic planet models that `query_router.py` and `report_service.py` pass, and
raises `AttributeError` instead of returning a result. -/
theorem c5_counterexample :
    plookup zeroDegreeNodesChart "Rahu" =
      some { name := "Rahu", sign := "Aries", degree := 0, house := 1, retrograde := true } ∧
    plookup zeroDegreeNodesChart "Ketu" =
      some { name := "Ketu", sign := "Libra", degree := 0, house := 7, retrograde := true } ∧
    (∀ p ∈ zeroDegreeNodesChart, p.2.sign ∈ SIGNS) ∧
    KundaliCalculator.calculateKalsarpaDosha zeroDegreeNodesChart =
      Except.error PyError.attributeError ∧
    ∀ res, KundaliCalculator.calculateKalsarpaDosha zeroDegreeNodesChart ≠
      Except.ok res := by
  have h : KundaliCalculator.calculateKalsarpaDosha zeroDegreeNodesChart =
      Except.error PyError.attributeError := rfl
  refine ⟨by decide, by decide, by decide, h, fun res hres => ?_⟩
  rw [h] at hres
  exact Except.noConfusion hres

/-- Witness for C5 at `sampleKalsarpaChart`, where every hypothesis holds
concretely. -/
theorem c5_witness :
    plookup sampleKalsarpaChart "Rahu" = some sampleRahu ∧
    plookup sampleKalsarpaChart "Ketu" = some sampleKetu ∧
    (∀ p ∈ sampleKalsarpaChart, p.2.sign ∈ SIGNS) ∧
    (∀ p ∈ sampleKalsarpaChart, p.2.degree ≠ 0) ∧
    (∀ p ∈ sampleKalsarpaChart, p.1 ∉ (["Uranus", "Neptune", "Pluto"] : List String)) ∧
    (∃ p ∈ sampleKalsarpaChart, p.1 ∉ (["Rahu", "Ketu"] : List String)) ∧
    specAbsoluteDegree sampleKetu = pyMod (specAbsoluteDegree sampleRahu + 180) 360 ∧
    (∃ res, KundaliCalculator.calculateKalsarpaDosha sampleKalsarpaChart = Except.ok res ∧
      (res.present = true ↔
        ((∀ p ∈ sampleKalsarpaChart, p.1 ∉ (["Rahu", "Ketu"] : List String) →
            specArcContains (specAbsoluteDegree sampleRahu) (specAbsoluteDegree sampleKetu)
              (specAbsoluteDegree p.2)) ∨
         (∀ p ∈ sampleKalsarpaChart, p.1 ∉ (["Rahu", "Ketu"] : List String) →
            specArcContains (specAbsoluteDegree sampleKetu) (specAbsoluteDegree sampleRahu)
              (specAbsoluteDegree p.2)))) ∧
      (res.present = true →
        ((res.type = some "Anant (Rahu to Ketu)" ∧
          (∀ p ∈ sampleKalsarpaChart, p.1 ∉ (["Rahu", "Ketu"] : List String) →
            specArcContains (specAbsoluteDegree sampleRahu) (specAbsoluteDegree sampleKetu)
              (specAbsoluteDegree p.2))) ∨
         (res.type = some "Kulat (Ketu to Rahu)" ∧
          (∀ p ∈ sampleKalsarpaChart, p.1 ∉ (["Rahu", "Ketu"] : List String) →
            specArcContains (specAbsoluteDegree sampleKetu) (specAbsoluteDegree sampleRahu)
              (specAbsoluteDegree p.2)))))) := by
  have hopp : specAbsoluteDegree sampleKetu = pyMod (specAbsoluteDegree sampleRahu + 180) 360 := by
    have h6 : List.indexOf "Libra" SIGNS = 6 := by decide
    have h0 : List.indexOf "Aries" SIGNS = 0 := by decide
    unfold specAbsoluteDegree sampleKetu sampleRahu
    dsimp only
    rw [h6, h0]
    norm_num [pyMod]
  exact ⟨by decide, by decide, by decide, by decide, by decide,
    ⟨("Sun", { name := "Sun", sign := "Taurus", degree := 10, house := 2, retrograde := false }),
      by decide, by decide⟩, hopp,
    c5_kalsarpa_dosha sampleKalsarpaChart sampleRahu sampleKetu
      (by decide) (by decide) (by decide) (by decide) (by decide)
      ⟨("Sun", { name := "Sun", sign := "Taurus", degree := 10, house := 2, retrograde := false }),
        by decide, by decide⟩ hopp⟩

/-! ### C4: Ashta Koot bounds and verdict -/

theorem vashya_lookup_bounds (k : String × String) (v : ℚ)
    (h : List.lookup k VASHYA_COMPAT = some v) : 0 ≤ v ∧ v ≤ 2 := by
  simp only [VASHYA_COMPAT, List.lookup] at h
  repeat' split at h
  all_goals first
    | (simp only [Option.some.injEq] at h; subst h; norm_num)
    | simp at h

theorem gana_lookup_bounds (k : String × String) (v : ℚ)
    (h : List.lookup k GANA_SCORES = some v) : 0 ≤ v ∧ v ≤ 6 := by
  simp only [GANA_SCORES, List.lookup] at h
  repeat' split at h
  all_goals first
    | (simp only [Option.some.injEq] at h; subst h; norm_num)
    | simp at h

theorem calcVarna_bounds (b g : String) :
    0 ≤ (MatchingService.calcVarna b g).1 ∧ (MatchingService.calcVarna b g).1 ≤ 1 := by
  unfold MatchingService.calcVarna
  dsimp only
  split_ifs <;> norm_num

theorem calcVashya_bounds (b g : String) :
    0 ≤ (MatchingService.calcVashya b g).1 ∧ (MatchingService.calcVashya b g).1 ≤ 2 := by
  unfold MatchingService.calcVashya
  dsimp only
  rcases h1 : List.lookup (b, g) VASHYA_COMPAT with _ | v1
  · dsimp only
    rcases h2 : List.lookup (g, b) VASHYA_COMPAT with _ | v2
    · dsimp only
      split <;> norm_num
    · dsimp only
      exact vashya_lookup_bounds _ _ h2
  · dsimp only
    exact vashya_lookup_bounds _ _ h1

theorem calcTara_bounds (b g : String) :
    0 ≤ (MatchingService.calcTara b g).1 ∧ (MatchingService.calcTara b g).1 ≤ 3 := by
  unfold MatchingService.calcTara
  dsimp only
  split_ifs <;> norm_num

theorem calcYoni_bounds (b g : String) :
    0 ≤ (MatchingService.calcYoni b g).1 ∧ (MatchingService.calcYoni b g).1 ≤ 4 := by
  unfold MatchingService.calcYoni
  split_ifs <;> norm_num

theorem calcGrahaMaitri_bounds (b g : String) :
    0 ≤ (MatchingService.calcGrahaMaitri b g).1 ∧
      (MatchingService.calcGrahaMaitri b g).1 ≤ 5 := by
  unfold MatchingService.calcGrahaMaitri
  dsimp only
  split_ifs <;> norm_num

theorem calcGana_bounds (b g : String) :
    0 ≤ (MatchingService.calcGana b g).1 ∧ (MatchingService.calcGana b g).1 ≤ 6 := by
  unfold MatchingService.calcGana
  dsimp only
  rcases h1 : List.lookup (b, g) GANA_SCORES with _ | v1
  · simp only [Option.getD_none]
    norm_num
  · simp only [Option.getD_some]
    exact gana_lookup_bounds _ _ h1

theorem calcBhakoot_bounds (b g : String) :
    0 ≤ (MatchingService.calcBhakoot b g).1 ∧ (MatchingService.calcBhakoot b g).1 ≤ 7 := by
  unfold MatchingService.calcBhakoot
  dsimp only
  split_ifs <;> norm_num

theorem calcNadi_bounds (b g : String) :
    0 ≤ (MatchingService.calcNadi b g).1 ∧ (MatchingService.calcNadi b g).1 ≤ 8 := by
  unfold MatchingService.calcNadi
  split_ifs <;> norm_num

theorem verdict_cases (t : ℚ) (v : String)
    (hv : v = if t ≥ 25 then "Excellent Match" else if t ≥ 18 then "Good Match"
      else if t ≥ 12 then "Average Match" else "Below Average") :
    (v = "Excellent Match" ↔ 25 ≤ t) ∧
    (v = "Good Match" ↔ 18 ≤ t ∧ t < 25) ∧
    (v = "Average Match" ↔ 12 ≤ t ∧ t < 18) ∧
    (v = "Below Average" ↔ t < 12) := by
  subst hv
  split_ifs with h1 h2 h3
  · exact ⟨⟨fun _ => h1, fun _ => rfl⟩,
      ⟨fun h => absurd h (by decide), fun h => absurd h.2 (by linarith)⟩,
      ⟨fun h => absurd h (by decide), fun h => absurd h.2 (by linarith)⟩,
      ⟨fun h => absurd h (by decide), fun h => absurd h (by linarith)⟩⟩
  · exact ⟨⟨fun h => absurd h (by decide), fun h => absurd h h1⟩,
      ⟨fun _ => ⟨h2, by simpa using h1⟩, fun _ => rfl⟩,
      ⟨fun h => absurd h (by decide), fun h => absurd h.2 (by linarith)⟩,
      ⟨fun h => absurd h (by decide), fun h => absurd h (by linarith)⟩⟩
  · exact ⟨⟨fun h => absurd h (by decide), fun h => absurd h h1⟩,
      ⟨fun h => absurd h (by decide), fun h => absurd h.1 h2⟩,
      ⟨fun _ => ⟨h3, by simpa using h2⟩, fun _ => rfl⟩,
      ⟨fun h => absurd h (by decide), fun h => absurd h (by linarith)⟩⟩
  · exact ⟨⟨fun h => absurd h (by decide), fun h => absurd h h1⟩,
      ⟨fun h => absurd h (by decide), fun h => absurd h.1 h2⟩,
      ⟨fun h => absurd h (by decide), fun h => absurd h.1 h3⟩,
      ⟨fun _ => by simpa using h3, fun _ => rfl⟩⟩

/-- Claim C4: for every pair of (moon sign, moon degree) inputs with valid signs,
the Ashta Koot result exists and satisfies: totalScore ∈ [0, 36]; the eight factors
carry their declared maxima (Varna 1 … Nadi 8) and every factor's score lies in
[0, max]; and the verdict tiers are exactly the monotone thresholds 25/18/12 on
totalScore (the code's verdict strings are "Excellent Match", "Good Match",
"Average Match", "Below Average"). -/
theorem c4_ashta_koot_bounds (boySign girlSign : String) (boyDeg girlDeg : ℚ)
    (hb : boySign ∈ SIGNS) (hg : girlSign ∈ SIGNS) :
    ∃ r, MatchingService.calculateAshtaKoot boySign boyDeg girlSign girlDeg = some r ∧
      (0 ≤ r.totalScore ∧ r.totalScore ≤ 36) ∧
      r.factors.map (fun f => (f.name, f.maxScore)) =
        [("Varna", 1), ("Vashya", 2), ("Tara", 3), ("Yoni", 4),
         ("Graha Maitri", 5), ("Gana", 6), ("Bhakoot", 7), ("Nadi", 8)] ∧
      (∀ f ∈ r.factors, 0 ≤ f.score ∧ f.score ≤ f.maxScore) ∧
      (r.verdict = "Excellent Match" ↔ 25 ≤ r.totalScore) ∧
      (r.verdict = "Good Match" ↔ 18 ≤ r.totalScore ∧ r.totalScore < 25) ∧
      (r.verdict = "Average Match" ↔ 12 ≤ r.totalScore ∧ r.totalScore < 18) ∧
      (r.verdict = "Below Average" ↔ r.totalScore < 12) := by
  obtain ⟨boyAva, hba⟩ : ∃ a, KundaliCalculator.calculateAvakahadaChakra boySign boyDeg
      = some a := by
    unfold KundaliCalculator.calculateAvakahadaChakra
    rw [if_pos hb]
    exact ⟨_, rfl⟩
  obtain ⟨girlAva, hga⟩ : ∃ a, KundaliCalculator.calculateAvakahadaChakra girlSign girlDeg
      = some a := by
    unfold KundaliCalculator.calculateAvakahadaChakra
    rw [if_pos hg]
    exact ⟨_, rfl⟩
  have h1 := calcVarna_bounds boyAva.varna girlAva.varna
  have h2 := calcVashya_bounds boyAva.vashya girlAva.vashya
  have h3 := calcTara_bounds boyAva.nakshatra girlAva.nakshatra
  have h4 := calcYoni_bounds boyAva.yoni girlAva.yoni
  have h5 := calcGrahaMaitri_bounds boySign girlSign
  have h6 := calcGana_bounds boyAva.gana girlAva.gana
  have h7 := calcBhakoot_bounds boySign girlSign
  have h8 := calcNadi_bounds boyAva.nadi girlAva.nadi
  unfold MatchingService.calculateAshtaKoot
  rw [hba, hga]
  dsimp only
  refine ⟨_, rfl, ?_, ?_, ?_, ?_⟩
  · simp only [List.map_cons, List.map_nil, List.sum_cons, List.sum_nil, add_zero]
    constructor
    · linarith [h1.1, h2.1, h3.1, h4.1, h5.1, h6.1, h7.1, h8.1]
    · linarith [h1.2, h2.2, h3.2, h4.2, h5.2, h6.2, h7.2, h8.2]
  · rfl
  · intro f hf
    simp only [List.mem_cons, List.not_mem_nil, or_false] at hf
    rcases hf with hf | hf | hf | hf | hf | hf | hf | hf <;> subst hf
    · exact h1
    · exact h2
    · exact h3
    · exact h4
    · exact h5
    · exact h6
    · exact h7
    · exact h8
  · exact ⟨(verdict_cases _ _ rfl).1, (verdict_cases _ _ rfl).2.1,
      (verdict_cases _ _ rfl).2.2.1, (verdict_cases _ _ rfl).2.2.2⟩

/-- Witness for C4 at the spec's scenario inputs: boy Moon Aries 10°, girl Moon
Libra 10°. -/
theorem c4_witness :
    "Aries" ∈ SIGNS ∧ "Libra" ∈ SIGNS ∧
    (∃ r, MatchingService.calculateAshtaKoot "Aries" 10 "Libra" 10 = some r ∧
      (0 ≤ r.totalScore ∧ r.totalScore ≤ 36) ∧
      r.factors.map (fun f => (f.name, f.maxScore)) =
        [("Varna", 1), ("Vashya", 2), ("Tara", 3), ("Yoni", 4),
         ("Graha Maitri", 5), ("Gana", 6), ("Bhakoot", 7), ("Nadi", 8)] ∧
      (∀ f ∈ r.factors, 0 ≤ f.score ∧ f.score ≤ f.maxScore) ∧
      (r.verdict = "Excellent Match" ↔ 25 ≤ r.totalScore) ∧
      (r.verdict = "Good Match" ↔ 18 ≤ r.totalScore ∧ r.totalScore < 25) ∧
      (r.verdict = "Average Match" ↔ 12 ≤ r.totalScore ∧ r.totalScore < 18) ∧
      (r.verdict = "Below Average" ↔ r.totalScore < 12)) :=
  ⟨by decide, by decide,
   c4_ashta_koot_bounds "Aries" "Libra" 10 10 (by decide) (by decide)⟩

/-! ### C3: clause matching -/

theorem pyEqStr_iff (j : Json) (s : String) : pyEqStr j s = true ↔ j = Json.str s := by
  cases j <;> simp [pyEqStr]

theorem matchPlanet_shape (kundali : KundaliChart) (kvs : List (String × Json))
    (b : Bool) (t : Json)
    (h : RuleEngine.evaluatePlanetClause kundali kvs = .ok (b, t)) :
    (b = false → t = .obj []) ∧ (b = true → isTriggerSnapshot t) := by
  unfold RuleEngine.evaluatePlanetClause at h
  dsimp only at h
  cases hpg : planetGetJ kundali (jsonGetD kvs "name") with
  | error e =>
      rw [hpg] at h
      simp at h
  | ok o =>
      rw [hpg] at h
      cases o with
      | none =>
          simp only [Except.ok.injEq, Prod.mk.injEq] at h
          obtain ⟨hb, ht⟩ := h
          subst hb
          exact ⟨fun _ => ht.symm, fun hc => absurd hc (by simp)⟩
      | some planet =>
          dsimp only at h
          split_ifs at h with h1 h2 <;>
            simp only [Except.ok.injEq, Prod.mk.injEq] at h <;>
            obtain ⟨hb, ht⟩ := h <;>
            subst hb
          · exact ⟨fun _ => ht.symm, fun hc => absurd hc (by simp)⟩
          · exact ⟨fun _ => ht.symm, fun hc => absurd hc (by simp)⟩
          · exact ⟨fun hc => absurd hc (by simp),
              fun _ => ⟨"planet", jsonGetD kvs "name", _, ht.symm⟩⟩

theorem matchHouse_shape (derived : Option DerivedAstrology)
    (kvs : List (String × Json)) (b : Bool) (t : Json)
    (h : RuleMatcher.matchHouse derived kvs = .ok (b, t)) :
    (b = false → t = .obj []) ∧ (b = true → isTriggerSnapshot t) := by
  unfold RuleMatcher.matchHouse at h
  cases derived with
  | none =>
      simp only [Except.ok.injEq, Prod.mk.injEq] at h
      obtain ⟨hb, ht⟩ := h
      subst hb
      exact ⟨fun _ => ht.symm, fun hc => absurd hc (by simp)⟩
  | some d =>
      dsimp only at h
      cases hq : houseGetJ d.houseStrengths (jsonGetD kvs "house") with
      | error e =>
          rw [hq] at h
          simp at h
      | ok o =>
          rw [hq] at h
          cases o with
          | none =>
              simp only [Except.ok.injEq, Prod.mk.injEq] at h
              obtain ⟨hb, ht⟩ := h
              subst hb
              exact ⟨fun _ => ht.symm, fun hc => absurd hc (by simp)⟩
          | some hs =>
              dsimp only at h
              split_ifs at h with h1 <;>
                simp only [Except.ok.injEq, Prod.mk.injEq] at h <;>
                obtain ⟨hb, ht⟩ := h <;>
                subst hb
              · exact ⟨fun _ => ht.symm, fun hc => absurd hc (by simp)⟩
              · exact ⟨fun hc => absurd hc (by simp),
                  fun _ => ⟨"house", Json.str (pyStr (jsonGetD kvs "house")), _, ht.symm⟩⟩

theorem matchDosha_shape (derived : Option DerivedAstrology)
    (kvs : List (String × Json)) (b : Bool) (t : Json)
    (h : RuleMatcher.matchDosha derived kvs = .ok (b, t)) :
    (b = false → t = .obj []) ∧ (b = true → isTriggerSnapshot t) := by
  unfold RuleMatcher.matchDosha at h
  cases derived with
  | none =>
      simp only [Except.ok.injEq, Prod.mk.injEq] at h
      obtain ⟨hb, ht⟩ := h
      subst hb
      exact ⟨fun _ => ht.symm, fun hc => absurd hc (by simp)⟩
  | some d =>
      dsimp only at h
      cases hf : d.doshas.find? (fun dosha =>
          pyEqStr (jsonGetD kvs "name") dosha.name &&
          pyEqBool ((jsonGet kvs "present").getD (.bool true)) dosha.present) with
      | none =>
          rw [hf] at h
          simp only [Except.ok.injEq, Prod.mk.injEq] at h
          obtain ⟨hb, ht⟩ := h
          subst hb
          exact ⟨fun _ => ht.symm, fun hc => absurd hc (by simp)⟩
      | some dosha =>
          rw [hf] at h
          simp only [Except.ok.injEq, Prod.mk.injEq] at h
          obtain ⟨hb, ht⟩ := h
          subst hb
          exact ⟨fun hc => absurd hc (by simp),
            fun _ => ⟨"dosha", jsonGetD kvs "name", _, ht.symm⟩⟩

/-- Claim C3: during clause matching (`RuleMatcher.match`), an atomic clause of any
of the three documented kinds either fails closed — `(false, {})` for unknown entity
types, a missing planet, or missing derived data — or succeeds and returns a trigger
snapshot `{entity_type, entity_key, snapshot}`; in particular a HouseClause or
DoshaClause whose referenced derived fact matches does succeed. -/
theorem c3_clause_matching (kundali : KundaliChart) (derived : Option DerivedAstrology)
    (kvs : List (String × Json)) :
    (pyEqStr (jsonGetD kvs "entity") "planet" = false →
     pyEqStr (jsonGetD kvs "entity") "house" = false →
     pyEqStr (jsonGetD kvs "entity") "dosha" = false →
      RuleMatcher.matchCondition kundali derived (.obj kvs) = .ok (false, .obj [])) ∧
    (∀ nm, jsonGetD kvs "entity" = .str "planet" → jsonGetD kvs "name" = .str nm →
      kundali.getPlanet nm = none →
      RuleMatcher.matchCondition kundali derived (.obj kvs) = .ok (false, .obj [])) ∧
    (derived = none →
      (jsonGetD kvs "entity" = .str "house" ∨ jsonGetD kvs "entity" = .str "dosha") →
      RuleMatcher.matchCondition kundali derived (.obj kvs) = .ok (false, .obj [])) ∧
    (∀ cond b t, RuleMatcher.matchCondition kundali derived cond = .ok (b, t) →
      (b = false → t = .obj []) ∧ (b = true → isTriggerSnapshot t)) ∧
    (∀ d hs (hn : ℤ), derived = some d → jsonGetD kvs "entity" = .str "house" →
      jsonGetD kvs "house" = .num (hn : ℚ) →
      List.lookup hn d.houseStrengths = some hs →
      (jsonGetD kvs "strength" = .null ∨ jsonGetD kvs "strength" = .str hs.strength) →
      ∃ t, RuleMatcher.matchCondition kundali derived (.obj kvs) = .ok (true, t) ∧
        isTriggerSnapshot t) ∧
    (∀ d nm p, derived = some d → jsonGetD kvs "entity" = .str "dosha" →
      jsonGetD kvs "name" = .str nm →
      (jsonGet kvs "present").getD (.bool true) = .bool p →
      (∃ dosha ∈ d.doshas, dosha.name = nm ∧ dosha.present = p) →
      ∃ t, RuleMatcher.matchCondition kundali derived (.obj kvs) = .ok (true, t) ∧
        isTriggerSnapshot t) := by
  refine ⟨?_, ?_, ?_, ?_, ?_, ?_⟩
  · intro h1 h2 h3
    unfold RuleMatcher.matchCondition
    dsimp only
    rw [h1, h2, h3]
    rfl
  · intro nm hent hname hpl
    unfold RuleMatcher.matchCondition
    dsimp only
    rw [hent]
    rw [show pyEqStr (Json.str "planet") "planet" = true from by decide]
    unfold RuleMatcher.matchPlanet RuleEngine.evaluatePlanetClause
    dsimp only
    rw [hname]
    dsimp only [planetGetJ]
    rw [hpl]
    rfl
  · intro hd hcase
    unfold RuleMatcher.matchCondition
    dsimp only
    rcases hcase with he | he <;> rw [he] <;> subst hd
    · rw [show pyEqStr (Json.str "house") "planet" = false from by decide,
        show pyEqStr (Json.str "house") "house" = true from by decide]
      rfl
    · rw [show pyEqStr (Json.str "dosha") "planet" = false from by decide,
        show pyEqStr (Json.str "dosha") "house" = false from by decide,
        show pyEqStr (Json.str "dosha") "dosha" = true from by decide]
      rfl
  · intro cond b t h
    cases cond with
    | obj kvs2 =>
        unfold RuleMatcher.matchCondition at h
        dsimp only at h
        split_ifs at h
        · exact matchPlanet_shape kundali kvs2 b t h
        · exact matchHouse_shape derived kvs2 b t h
        · exact matchDosha_shape derived kvs2 b t h
        · simp only [Except.ok.injEq, Prod.mk.injEq] at h
          obtain ⟨hb, ht⟩ := h
          subst hb
          exact ⟨fun _ => ht.symm, fun hc => absurd hc (by simp)⟩
    | null => simp [RuleMatcher.matchCondition] at h
    | bool c => simp [RuleMatcher.matchCondition] at h
    | num q => simp [RuleMatcher.matchCondition] at h
    | str s => simp [RuleMatcher.matchCondition] at h
    | arr xs => simp [RuleMatcher.matchCondition] at h
  · intro d hs hn hd hent hhouse hlk hstr
    subst hd
    refine ⟨Json.obj
        [("entity_type", Json.str "house"),
         ("entity_key", Json.str (pyStr (Json.num (hn : ℚ)))),
         ("snapshot", Json.obj [("strength", Json.str hs.strength),
           ("reasons", Json.arr (hs.reasons.map Json.str))])],
      ?_, "house", Json.str (pyStr (Json.num (hn : ℚ))),
      Json.obj [("strength", Json.str hs.strength),
        ("reasons", Json.arr (hs.reasons.map Json.str))], rfl⟩
    unfold RuleMatcher.matchCondition RuleMatcher.matchHouse
    dsimp only
    rw [hent,
      show pyEqStr (Json.str "house") "planet" = false from by decide,
      show pyEqStr (Json.str "house") "house" = true from by decide]
    simp only [Bool.false_eq_true, if_false, if_true, hhouse, houseGetJ,
      Rat.den_intCast, Rat.num_intCast, beq_self_eq_true, hlk]
    rcases hstr with h | h <;> rw [h]
    · simp [pyTruthy]
    · simp [pyEqStr]
  · intro d nm p hd hent hname hpres hex
    subst hd
    unfold RuleMatcher.matchCondition
    dsimp only
    rw [hent]
    rw [show pyEqStr (Json.str "dosha") "planet" = false from by decide,
      show pyEqStr (Json.str "dosha") "house" = false from by decide,
      show pyEqStr (Json.str "dosha") "dosha" = true from by decide]
    unfold RuleMatcher.matchDosha
    dsimp only
    have hfind : (d.doshas.find? (fun dosha =>
        pyEqStr (jsonGetD kvs "name") dosha.name &&
        pyEqBool ((jsonGet kvs "present").getD (.bool true)) dosha.present)).isSome := by
      obtain ⟨dosha, hmem, hnm, hp⟩ := hex
      apply List.find?_isSome.mpr
      refine ⟨dosha, hmem, ?_⟩
      rw [hname, hpres, hnm, hp]
      simp [pyEqStr, pyEqBool]
    obtain ⟨dosha, hdosha⟩ := Option.isSome_iff_exists.mp hfind
    rw [hdosha]
    exact ⟨_, rfl, "dosha", jsonGetD kvs "name", _, rfl⟩

/-- Witness for C3: a DoshaClause `{entity: "dosha", name: "Mangal Dosha"}` against
derived facts containing a present Mangal Dosha succeeds with a trigger snapshot. -/
theorem c3_witness :
    (some (DerivedAstrology.mk [Dosha.mk "Mangal Dosha" true (some "medium") none] [])
      = some (DerivedAstrology.mk [Dosha.mk "Mangal Dosha" true (some "medium") none] [])) ∧
    jsonGetD [("entity", Json.str "dosha"), ("name", Json.str "Mangal Dosha")] "entity"
      = Json.str "dosha" ∧
    (∃ t, RuleMatcher.matchCondition (KundaliChart.mk [])
        (some (DerivedAstrology.mk [Dosha.mk "Mangal Dosha" true (some "medium") none] []))
        (Json.obj [("entity", Json.str "dosha"), ("name", Json.str "Mangal Dosha")])
        = .ok (true, t) ∧ isTriggerSnapshot t) :=
  ⟨rfl, rfl,
   (c3_clause_matching (KundaliChart.mk [])
      (some (DerivedAstrology.mk [Dosha.mk "Mangal Dosha" true (some "medium") none] []))
      [("entity", Json.str "dosha"), ("name", Json.str "Mangal Dosha")]).2.2.2.2.2
     (DerivedAstrology.mk [Dosha.mk "Mangal Dosha" true (some "medium") none] [])
     "Mangal Dosha" true rfl rfl rfl rfl
     ⟨Dosha.mk "Mangal Dosha" true (some "medium") none,
      List.mem_cons_self _ _, rfl, rfl⟩⟩

/-! ### C8: rule evaluation -/

theorem jsonGetD_scalar (kvs : List (String × Json)) (k : String)
    (h : kvs.all (fun kv => scalarJson kv.2) = true) :
    scalarJson (jsonGetD kvs k) = true := by
  unfold jsonGetD jsonGet
  cases hf : kvs.find? (fun kv => kv.1 == k) with
  | none => rfl
  | some kv =>
      have hm := List.mem_of_find?_eq_some hf
      have := List.all_eq_true.mp h kv hm
      simpa using this

theorem evaluatePlanetClause_ok (kundali : KundaliChart) (kvs : List (String × Json))
    (hs : scalarJson (jsonGetD kvs "name") = true) :
    ∃ b t, RuleEngine.evaluatePlanetClause kundali kvs = .ok (b, t) := by
  have hok : ∃ o, planetGetJ kundali (jsonGetD kvs "name") = .ok o := by
    cases hj : jsonGetD kvs "name" with
    | arr xs => rw [hj] at hs; simp [scalarJson] at hs
    | obj kvs2 => rw [hj] at hs; simp [scalarJson] at hs
    | null => exact ⟨_, rfl⟩
    | bool c => exact ⟨_, rfl⟩
    | num q => exact ⟨_, rfl⟩
    | str s => exact ⟨_, rfl⟩
  obtain ⟨o, ho⟩ := hok
  unfold RuleEngine.evaluatePlanetClause
  dsimp only
  rw [ho]
  cases o with
  | none => exact ⟨_, _, rfl⟩
  | some planet =>
      dsimp only
      split_ifs <;> exact ⟨_, _, rfl⟩

theorem evaluateClause_ok (kundali : KundaliChart) (c : Json)
    (h : wellFormedClause c = true) :
    ∃ b t, RuleEngine.evaluateClause kundali c = .ok (b, t) := by
  cases c with
  | obj kvs =>
      unfold RuleEngine.evaluateClause
      dsimp only
      split_ifs
      · exact evaluatePlanetClause_ok kundali kvs
          (jsonGetD_scalar kvs "name" (by simpa [wellFormedClause] using h))
      · exact ⟨_, _, rfl⟩
  | null => simp [wellFormedClause] at h
  | bool b => simp [wellFormedClause] at h
  | num q => simp [wellFormedClause] at h
  | str s => simp [wellFormedClause] at h
  | arr xs => simp [wellFormedClause] at h

theorem evalAllLoop_ok (kundali : KundaliChart) (cs : List Json)
    (h : ∀ c ∈ cs, wellFormedClause c = true) :
    ∀ acc, ∃ b ts, RuleEngine.evalAllLoop kundali cs acc = .ok (b, ts) := by
  induction cs with
  | nil => exact fun acc => ⟨_, _, rfl⟩
  | cons c rest ih =>
      intro acc
      obtain ⟨b, t, hbt⟩ := evaluateClause_ok kundali c (h c (List.mem_cons_self _ _))
      unfold RuleEngine.evalAllLoop
      rw [hbt]
      dsimp only
      by_cases hb : b = true
      · subst hb
        rw [if_pos rfl]
        exact ih (fun c hc => h c (List.mem_cons_of_mem _ hc)) (t :: acc)
      · rw [if_neg hb]
        exact ⟨_, _, rfl⟩

theorem evalAnyLoop_ok (kundali : KundaliChart) (cs : List Json)
    (h : ∀ c ∈ cs, wellFormedClause c = true) :
    ∃ b ts, RuleEngine.evalAnyLoop kundali cs = .ok (b, ts) := by
  induction cs with
  | nil => exact ⟨_, _, rfl⟩
  | cons c rest ih =>
      obtain ⟨b, t, hbt⟩ := evaluateClause_ok kundali c (h c (List.mem_cons_self _ _))
      unfold RuleEngine.evalAnyLoop
      rw [hbt]
      dsimp only
      by_cases hb : b = true
      · subst hb
        rw [if_pos rfl]
        exact ⟨_, _, rfl⟩
      · rw [if_neg hb]
        exact ih (fun c hc => h c (List.mem_cons_of_mem _ hc))

theorem jsonAnyKey_iff (kvs : List (String × Json)) (k : String) :
    kvs.any (fun kv => kv.1 == k) = true ↔ ∃ v, jsonGet kvs k = some v := by
  unfold jsonGet
  constructor
  · intro h
    obtain ⟨kv, hm, hp⟩ := List.any_eq_true.mp h
    have : (kvs.find? (fun kv => kv.1 == k)).isSome := by
      rw [List.find?_isSome]
      exact ⟨kv, hm, hp⟩
    obtain ⟨kv2, hkv2⟩ := Option.isSome_iff_exists.mp this
    exact ⟨kv2.2, by rw [hkv2]; rfl⟩
  · intro ⟨v, hv⟩
    cases hf : kvs.find? (fun kv => kv.1 == k) with
    | none => rw [hf] at hv; simp at hv
    | some kv =>
        apply List.any_eq_true.mpr
        exact ⟨kv, List.mem_of_find?_eq_some hf, by simpa using List.find?_some hf⟩

theorem evaluateRule_ok (kundali : KundaliChart) (conds : Json)
    (h : wellFormedConditions conds = true) :
    ∃ b ts, RuleEngine.evaluateRule kundali conds = .ok (b, ts) := by
  cases conds with
  | obj kvs =>
      unfold RuleEngine.evaluateRule jsonContainsKey
      dsimp only
      by_cases hall : kvs.any (fun kv => kv.1 == "all") = true
      · rw [hall]
        dsimp only
        obtain ⟨v, hv⟩ := (jsonAnyKey_iff kvs "all").mp hall
        unfold wellFormedConditions at h
        dsimp only at h
        rw [hv] at h
        cases v with
        | arr cs =>
            unfold RuleEngine.evaluateAll
            rw [show jsonGetD kvs "all" = Json.arr cs from by
              unfold jsonGetD; rw [hv]; rfl]
            dsimp only [jsonIter]
            exact evalAllLoop_ok kundali cs (fun c hc => List.all_eq_true.mp h c hc) []
        | null => simp at h
        | bool b => simp at h
        | num q => simp at h
        | str s => simp at h
        | obj kvs2 => simp at h
      · rw [Bool.not_eq_true] at hall
        rw [hall]
        dsimp only
        have hget : jsonGet kvs "all" = none := by
          cases hf : jsonGet kvs "all" with
          | none => rfl
          | some v =>
              exact absurd ((jsonAnyKey_iff kvs "all").mpr ⟨v, hf⟩) (by rw [hall]; simp)
        by_cases hany : kvs.any (fun kv => kv.1 == "any") = true
        · rw [hany]
          dsimp only
          obtain ⟨v, hv⟩ := (jsonAnyKey_iff kvs "any").mp hany
          unfold wellFormedConditions at h
          dsimp only at h
          rw [hget, hv] at h
          cases v with
          | arr cs =>
              unfold RuleEngine.evaluateAny
              rw [show jsonGetD kvs "any" = Json.arr cs from by
                unfold jsonGetD; rw [hv]; rfl]
              dsimp only [jsonIter]
              exact evalAnyLoop_ok kundali cs (fun c hc => List.all_eq_true.mp h c hc)
          | null => simp at h
          | bool b => simp at h
          | num q => simp at h
          | str s => simp at h
          | obj kvs2 => simp at h
        · rw [Bool.not_eq_true] at hany
          rw [hany]
          exact ⟨_, _, rfl⟩
  | null => simp [wellFormedConditions] at h
  | bool b => simp [wellFormedConditions] at h
  | num q => simp [wellFormedConditions] at h
  | str s => simp [wellFormedConditions] at h
  | arr xs => simp [wellFormedConditions] at h

/-- Claim C8 counterexample: a rule whose `"all"` list contains a non-object
clause (`{"all": [5]}`) makes `evaluate` raise (`clause.get` on an int —
`AttributeError`) instead of yielding a non-match, so evaluation is not
exception-free on all malformed rule data. -/
theorem c8_counterexample :
    RuleEngine.evaluate (KundaliChart.mk [])
      [{ ruleKey := "bad", conditions := Json.obj [("all", Json.arr [Json.num 5])] }]
      = .error .attributeError ∧
    ∀ results, RuleEngine.evaluate (KundaliChart.mk [])
      [{ ruleKey := "bad", conditions := Json.obj [("all", Json.arr [Json.num 5])] }]
      ≠ .ok results := by
  have h : RuleEngine.evaluate (KundaliChart.mk [])
      [{ ruleKey := "bad", conditions := Json.obj [("all", Json.arr [Json.num 5])] }]
      = .error .attributeError := rfl
  refine ⟨h, fun results hres => ?_⟩
  rw [h] at hres
  exact Except.noConfusion hres

/-- Claim C8 (amended): for every chart and every list of rules whose condition
trees are well-shaped (JSON objects whose `"all"`/`"any"` entry is an array of
object clauses with scalar field values), evaluation never throws and returns
exactly one `RuleMatchResult` — with `matched = true` — per rule whose condition
tree evaluates true, in rule order; within that shape, malformed or unknown
structures yield non-matches.  (A non-object clause, however, raises — see the
counterexample.) -/
theorem c8_rule_evaluation (kundali : KundaliChart) (rules : List Rule)
    (hwf : ∀ r ∈ rules, wellFormedConditions r.conditions = true) :
    ∃ results, RuleEngine.evaluate kundali rules = .ok results ∧
      results.map (fun x => x.rule) =
        rules.filter (fun r => ruleTreeMatches kundali r.conditions) ∧
      ∀ x ∈ results, x.matched = true := by
  induction rules with
  | nil =>
      refine ⟨[], rfl, rfl, ?_⟩
      intro x hx
      exact absurd hx (List.not_mem_nil x)
  | cons r rest ih =>
      obtain ⟨b, ts, hr⟩ := evaluateRule_ok kundali r.conditions
        (hwf r (List.mem_cons_self _ _))
      obtain ⟨res, hres, hmap, hmat⟩ := ih (fun r2 h2 => hwf r2 (List.mem_cons_of_mem _ h2))
      have htm : ruleTreeMatches kundali r.conditions = b := by
        unfold ruleTreeMatches
        rw [hr]
      refine ⟨if b then { rule := r, matched := true, triggeredEntities := ts } :: res
        else res, ?_, ?_, ?_⟩
      · unfold RuleEngine.evaluate
        rw [hr]
        dsimp only
        rw [hres]
      · rw [List.filter_cons, htm]
        cases b with
        | true =>
            rw [if_pos rfl, if_pos rfl, List.map_cons, hmap]
        | false =>
            rw [if_neg (by simp), if_neg (by simp), hmap]
      · intro x hx
        cases b with
        | true =>
            rw [if_pos rfl] at hx
            rcases List.mem_cons.mp hx with rfl | hx2
            · rfl
            · exact hmat x hx2
        | false =>
            rw [if_neg (by simp)] at hx
            exact hmat x hx

/-- Witness for C8 (amended): the spec §8 scenario — the Jupiter-in-house-10 rule
against a chart with Jupiter in house 10. -/
theorem c8_witness :
    (∀ r ∈ [jupiterRule], wellFormedConditions r.conditions = true) ∧
    (∃ results, RuleEngine.evaluate jupiterChart [jupiterRule] = .ok results ∧
      results.map (fun x => x.rule) =
        [jupiterRule].filter (fun r => ruleTreeMatches jupiterChart r.conditions) ∧
      ∀ x ∈ results, x.matched = true) :=
  ⟨by decide, c8_rule_evaluation jupiterChart [jupiterRule] (by decide)⟩

end KundaliAI
